import Mathlib

/-!
Shallow embedding of the WhatsApp catalog-ordering conversation engine
(`ConversationService`, the refactored revision) together with the session
store (`SessionsService`), the prompt builders (`conversation.prompts`) and
the legacy `handleOrdering` of `conversation.service.ts`, plus theorems
about the engine's behaviour.

Conventions of the embedding:
* JS numbers that the engine treats as integers (stock, quantities, prices)
  are modelled as `Int`; prices are integral in this model, so `toFixed(2)`
  renders as `"<n>.00"`.
* A JS `Map`/object used as a finite map is an association list; `undefined`
  maps and empty maps coincide as `[]`, which is faithful to every use site
  (`m && m.size > 0`, `m?.get(k)`).
* Collaborator services (catalog, customers, orders, transport) are fields
  of an `Env` record of pure functions, per the spec's external-interface
  boundary; a `none` result stands for "not found / lookup failed".
  Outbound message delivery is modelled as always succeeding (transport
  failures are out of the spec's scope).
* A handler returns `(Option Session) × List Msg`: the messages it sent, and
  `some` final session on normal completion or `none` when the JS code would
  throw (a non-null assertion on a missing field, a collaborator throw);
  the top-level message handler is the error boundary that catches `none`.
-/

namespace VW

/-! ### JS string primitives -/

/-- Character-wise `toLowerCase` (ASCII range, which covers every input the
engine compares). -/
def jsToLower (s : String) : String := String.mk (s.data.map Char.toLower)

/-- Character-wise `toUpperCase` (ASCII range). -/
def jsToUpper (s : String) : String := String.mk (s.data.map Char.toUpper)

/-- JS `String.prototype.trim` (the whitespace class restricted to the ASCII
whitespace of the inputs). -/
def jsTrim (s : String) : String :=
  String.mk (((s.data.dropWhile Char.isWhitespace).reverse.dropWhile Char.isWhitespace).reverse)

/-- Worker of `jsSplitWs`: accumulate the current token (`skipping = false`)
or consume a separator run (`skipping = true`). -/
def splitWsAux : List Char → List Char → Bool → List String
  | [], acc, false => [String.mk acc.reverse]
  | [], _, true => [""]
  | c :: rest, acc, false =>
    if c.isWhitespace then String.mk acc.reverse :: splitWsAux rest [] true
    else splitWsAux rest (c :: acc) false
  | c :: rest, _, true =>
    if c.isWhitespace then splitWsAux rest [] true
    else splitWsAux rest [c] false

/-- JS `str.split(/\s+/)`: the segments between maximal whitespace runs, with
one empty segment kept at an end that begins/finishes with whitespace, and
`""` splitting to `[""]`. -/
def jsSplitWs (s : String) : List String := splitWsAux s.data [] false

/-- Replace the first occurrence of `pat` in `cs` by `sub` (JS
`String.prototype.replace` with a string pattern). -/
def replaceFirstChars (cs pat sub : List Char) : List Char :=
  match cs with
  | [] => []
  | c :: rest =>
    if pat.isPrefixOf (c :: rest) then sub ++ (c :: rest).drop pat.length
    else c :: replaceFirstChars rest pat sub

/-- Numeric value of a digit run. -/
def digitsVal (ds : List Char) : Nat :=
  ds.foldl (fun a c => a * 10 + (c.toNat - '0'.toNat)) 0

/-- JS `parseInt(s, 10)`: skip leading whitespace, optional sign, then the
longest digit prefix; `none` is `NaN` (no digit found). Trailing characters
are ignored, as in JS. -/
def jsParseInt (s : String) : Option Int :=
  let t := s.data.dropWhile Char.isWhitespace
  let (sign, t2) : Int × List Char :=
    match t with
    | '-' :: r => (-1, r)
    | '+' :: r => (1, r)
    | _ => (1, t)
  let ds := t2.takeWhile Char.isDigit
  if ds.isEmpty then none else some (sign * (digitsVal ds : Int))

/-- Index of the first occurrence of `needle` in `hay`, if any. -/
def strFindIdx (hay needle : List Char) : Option Nat :=
  match hay with
  | [] => if needle.isEmpty then some 0 else none
  | _ :: rest =>
    if needle.isPrefixOf hay then some 0
    else (strFindIdx rest needle).map (· + 1)

/-! ### Data model (session schema, product/company records) -/

/-- A named product presentation: `{precioventa, existencia}`. -/
structure Pres where
  precioventa : Int
  existencia : Int
deriving DecidableEq

/-- A catalog product as the engine reads it. -/
structure Producto where
  sku : String
  nombreCorto : String
  nombreLargo : Option String
  precioVenta : Int
  existencia : Int
  presentacion : List (String × Pres)
  fotos : List String
deriving DecidableEq

/-- A merchant company record. -/
structure Empresa where
  id : String
  code : String
  nombre : String
  saludoBienvenida : Option String
  saludoDespedida : Option String
  whatsApp : Option String
  codigoPais : String
  direccion : Option String
deriving DecidableEq

/-- A customer record (`ClientesService`). -/
structure Cliente where
  id : String
  nombre : Option String
  direccion : Option String
  telefono : Option String
deriving DecidableEq

/-- The session's company context `{code, id, name}`. -/
structure Company where
  code : String
  id : String
  name : String
deriving DecidableEq

/-- The `pendingProduct` snapshot stored in the session. -/
structure PendingProduct where
  sku : String
  nombreCorto : String
  precioVenta : Int
  existencia : Int
  presentacion : List (String × Pres)
deriving DecidableEq

/-- A cart line item. -/
structure CartItem where
  sku : String
  quantity : Int
  precioVenta : Int
  nombreCorto : String
  presentacion : Option String
deriving DecidableEq

/-- The legacy `pendingOrder` field `{sku, quantity}`. -/
structure PendingOrder where
  sku : String
  quantity : Int
deriving DecidableEq

/-- The persisted per-user session document (session schema). An absent
optional list field and an empty one coincide as `[]`, faithful to every
read site. -/
structure Session where
  userJid : String
  sessionId : String
  state : String
  company : Option Company
  availableCategories : List String
  numberedOptions : List (String × String)
  pendingProduct : Option PendingProduct
  pendingOrder : Option PendingOrder
  cart : List CartItem
  previousState : Option String
deriving DecidableEq

/-- Read `obj[key]` of a JS object modelled as an association list. -/
def noLookup (m : List (String × String)) (k : String) : Option String :=
  (m.find? (fun p => p.1 = k)).map (fun p => p.2)

/-- The `numberedOptions` produced by a `forEach` that binds `i + 1` (a JS
number key, coerced to its decimal string) to each value in order. -/
def bindNumbered (vals : List String) : List (String × String) :=
  vals.enum.map (fun p => (toString (p.1 + 1), p.2))

/-- An order item of `CreatePedidoDto`. -/
structure PedidoItem where
  sku : String
  cantidad : Int
  presentacion : Option String
deriving DecidableEq

/-- The order-creation DTO. -/
structure CreatePedidoDto where
  clienteId : String
  empresaId : String
  items : List PedidoItem
  totalPrecio : Int
deriving DecidableEq

/-- One outbound message: (recipient jid, text). -/
abbrev Msg := String × String

/-- Result of one handler: the messages it sent, and `some` final session on
normal completion, `none` when the JS code would throw to the turn
boundary. -/
abbrev HRes := Option Session × List Msg

/-- Sequence two handler steps: run the continuation only when the first
step completed normally, keeping all messages already sent. -/
def hseq (r : HRes) (k : Session → HRes) : HRes :=
  match r with
  | (some s, ms) => let r2 := k s; (r2.1, ms ++ r2.2)
  | (none, ms) => (none, ms)

/-! ### Collaborator environment -/

/-- The external collaborators the engine calls, as pure lookups.
`findByWhatsApp` has no implementation under src/ (only its caller);
it is the spec's `findMerchantByWhatsApp(number)` gateway operation. -/
structure Env where
  findOneByName : String → Option Empresa
  findAllEmpresas : List Empresa
  findProductCategories : String → List String
  findAllProducts : String → List Producto
  findProductsByCategory : String → String → List Producto
  findProductBySku : String → String → Option Producto
  findEmpresaById : String → Option Empresa
  findByWhatsApp : String → Option Empresa
  findOrCreateCliente : String → Cliente
  createPedido : CreatePedidoDto → Except Unit Unit
  decreaseStock : String → String → Int → Option String → Except Unit Unit

/-! ### Conversation constants

Modelled from the spec: `conversation.constants.ts` is not under src/ (only
its importers are). The state strings follow the schema default
`'selecting_company'` and the legacy revision's literals; the command table
is the closed command set of spec §4.1/§4.2 with mnemonic strings chosen to
match the mnemonics visible in the legacy prompts (`de`, `rc`, `vc`, `fp`,
`re`, `cancelar`, `terminar`, `finalizar`, `regresar`). -/

def SELECTING_COMPANY : String := "selecting_company"

def SELECTING_CATEGORY : String := "selecting_category"

def BROWSING_PRODUCTS : String := "browsing_products"

def AWAITING_PRODUCT_ACTION : String := "awaiting_product_action"

def AWAITING_QUANTITY_FOR_PRODUCT : String := "awaiting_quantity_for_product"

def AWAITING_CUSTOMER_DATA : String := "awaiting_customer_data"

def CHATTING : String := "chatting"

/-- The declared FSM states. -/
def declaredStates : List String :=
  [SELECTING_COMPANY, SELECTING_CATEGORY, BROWSING_PRODUCTS,
   AWAITING_PRODUCT_ACTION, AWAITING_QUANTITY_FOR_PRODUCT,
   AWAITING_CUSTOMER_DATA, CHATTING]

/-- The closed set of universal command keys. -/
inductive CommandKey where
  | CANCEL | FINISH | END | GO_BACK | REPEAT_MENU | VIEW_CART
  | FINALIZE_ORDER | DETAIL | CHAT | STOP_CHATTING
  | RETURN_TO_CATEGORIES | RETURN_TO_COMPANIES | ADD_TO_CART | CREATE_ORDER
deriving DecidableEq

/-- Mnemonic and display name of a command. -/
structure CommandInfo where
  mnemonic : String
  name : String
deriving DecidableEq

/-- Modelled from the spec: the static `{mnemonic, canonical name}` table of
`conversation.constants.ts`. -/
def cmdInfo : CommandKey → CommandInfo
  | .CANCEL => ⟨"cancelar", "Cancelar"⟩
  | .FINISH => ⟨"terminar", "Terminar"⟩
  | .END => ⟨"finalizar", "Finalizar"⟩
  | .GO_BACK => ⟨"regresar", "Regresar"⟩
  | .REPEAT_MENU => ⟨"menu", "Repetir menú"⟩
  | .VIEW_CART => ⟨"vc", "Ver carrito"⟩
  | .FINALIZE_ORDER => ⟨"fp", "Finalizar pedido"⟩
  | .DETAIL => ⟨"de", "Ver Detalle"⟩
  | .CHAT => ⟨"ch", "Chatear con la empresa"⟩
  | .STOP_CHATTING => ⟨"salir", "Salir del chat"⟩
  | .RETURN_TO_CATEGORIES => ⟨"rc", "Volver a categorías"⟩
  | .RETURN_TO_COMPANIES => ⟨"re", "Regresar a empresas"⟩
  | .ADD_TO_CART => ⟨"ac", "Agregar al carrito"⟩
  | .CREATE_ORDER => ⟨"pedido", "Crear pedido"⟩

/-- Every command key, in table order. -/
def allCommands : List CommandKey :=
  [.CANCEL, .FINISH, .END, .GO_BACK, .REPEAT_MENU, .VIEW_CART,
   .FINALIZE_ORDER, .DETAIL, .CHAT, .STOP_CHATTING,
   .RETURN_TO_CATEGORIES, .RETURN_TO_COMPANIES, .ADD_TO_CART, .CREATE_ORDER]

/-- The constructor-built `commandMap`: mnemonic → command key. -/
def commandLookup (text : String) : Option CommandKey :=
  allCommands.find? (fun k => (cmdInfo k).mnemonic = text)

/-! ### Prompt builders (`conversation.prompts`) -/

/-- JS `amount.toFixed(2)` on the integral prices of this model. -/
def toFixed2 (n : Int) : String := toString n ++ ".00"

/-- The `formatCurrency` helper. -/
def formatCurrency (amount : Int) : String := "$" ++ toFixed2 amount

/-- One company entry of the company-list prompt. -/
def companyLine (idx : Nat) (e : Empresa) : String :=
  let base := "*" ++ toString (idx + 1) ++ "*. " ++ e.nombre
  let base :=
    match e.whatsApp with
    | some w => if w ≠ "" then base ++ "\n  Celular: " ++ w else base
    | none => base
  match e.direccion with
  | some d => if d ≠ "" then base ++ "\n  Dirección: " ++ d else base
  | none => base

/-- The `buildCompanyListPrompt` message. -/
def buildCompanyListPrompt (empresas : List Empresa) : String :=
  "Hola, bienvenido. Por favor, elige una de nuestras empresas:\n\n" ++
    String.intercalate "\n\n" (empresas.enum.map (fun p => companyLine p.1 p.2))

/-- The `buildCategoryListPrompt` message. -/
def buildCategoryListPrompt (categories : List String) : String :=
  "Por favor, elige una categoría:\n" ++
    String.intercalate "\n"
      (categories.enum.map (fun p => "*" ++ toString (p.1 + 1) ++ "*. " ++ p.2))

/-- One product entry of the product-list prompt. -/
def productLine (useNumberedOptions : Bool) (idx : Nat) (p : Producto) : String :=
  let identifier :=
    if useNumberedOptions then "*" ++ toString (idx + 1) ++ "*" else "*" ++ p.sku ++ "*"
  let base := identifier ++ ". " ++ p.nombreCorto
  if ¬ p.presentacion.isEmpty then
    let avail := p.presentacion.filter (fun q => q.2.existencia > 0)
    if ¬ avail.isEmpty then
      base ++ "\n" ++
        String.intercalate "\n"
          (avail.map (fun q => "  " ++ q.1 ++ " - " ++ formatCurrency q.2.precioventa))
    else base ++ " - " ++ formatCurrency p.precioVenta
  else base ++ " - " ++ formatCurrency p.precioVenta

/-- The `buildProductListPrompt` message. -/
def buildProductListPrompt (products : List Producto) (instruction : String)
    (useNumberedOptions : Bool) (noProductsMessage : String) : String :=
  let productsInStock := products.filter (fun p => p.existencia > 0)
  if productsInStock.isEmpty then noProductsMessage
  else
    "Nuestro catálogo es:\n" ++
      String.intercalate "\n\n"
        (productsInStock.enum.map (fun q => productLine useNumberedOptions q.1 q.2)) ++
      "\n\n" ++ instruction

/-- The `buildProductDetailPrompt` message. -/
def buildProductDetailPrompt (producto : Producto) : String :=
  let detail := (producto.nombreLargo.filter (fun s => s ≠ "")).getD producto.nombreCorto
  if ¬ producto.fotos.isEmpty then
    detail ++ "\n\nFotos del producto:\n" ++ String.intercalate "\n" producto.fotos
  else detail

/-- The `buildCartPrompt` message. -/
def buildCartPrompt (cart : List CartItem) : String :=
  if cart.isEmpty then "Tu carrito está vacío."
  else
    let total := cart.foldl (fun a it => a + it.quantity * it.precioVenta) 0
    let items := cart.map (fun it =>
      let displayName :=
        match it.presentacion with
        | some pr => it.nombreCorto ++ " (" ++ pr ++ ")"
        | none => it.nombreCorto
      toString it.quantity ++ " x " ++ displayName ++ " (*" ++ it.sku ++ "*) - " ++
        formatCurrency (it.quantity * it.precioVenta))
    "🛒 *Tu Carrito:*\n" ++ String.intercalate "\n" items ++ "\n\n*Total: " ++
      formatCurrency total ++ "*"

/-- The `buildOptionsPrompt` message over (command, optional custom
description) entries. -/
def buildOptionsPrompt (options : List (CommandKey × Option String)) : String :=
  "Opciones:\n" ++
    String.intercalate "\n"
      (options.map (fun o =>
        "*" ++ (cmdInfo o.1).mnemonic ++ "*. " ++ (o.2.getD (cmdInfo o.1).name)))

/-- The `buildGeneralOptionsPrompt` message. -/
def buildGeneralOptionsPrompt : String :=
  buildOptionsPrompt [(.REPEAT_MENU, none), (.CANCEL, none)]

/-- Modelled from the spec: `buildChatStartPrompt` is called by the engine
but missing from the prompts module under src/; §4.2 only fixes that a
chat-entry notice is sent, so its wording here is a placeholder constant. -/
def buildChatStartPrompt (companyName : String) : String :=
  "Estás chateando con " ++ companyName ++ ". Escribe *salir* para terminar."

/-- Modelled from the spec: `buildVendorChatMessage` is called by the engine
but missing from the prompts module under src/; §4.2 fixes that the relay
text carries the customer's name, phone and message. -/
def buildVendorChatMessage (customerName customerPhone text : String) : String :=
  "Mensaje de " ++ customerName ++ " (" ++ customerPhone ++ "):\n" ++ text

/-! ### Small JS helpers shared by the handlers -/

/-- JS `o || fallback` over an optional string (`undefined` and `""` are
falsy). -/
def orDefault (o : Option String) (fallback : String) : String :=
  match o with
  | some v => if v ≠ "" then v else fallback
  | none => fallback

/-- JS `map[k] || fallback` over `numberedOptions`. -/
def resolveOr (m : List (String × String)) (k fallback : String) : String :=
  orDefault (noLookup m k) fallback

/-- JS `Map.prototype.get` over a presentation map. -/
def presGet (m : List (String × Pres)) (k : String) : Option Pres :=
  (m.find? (fun p => p.1 = k)).map (fun p => p.2)

/-- JS `obj[k] = v` over `numberedOptions`. -/
def noInsert (m : List (String × String)) (k v : String) : List (String × String) :=
  if m.any (fun p => p.1 = k) then m.map (fun p => if p.1 = k then (k, v) else p)
  else m ++ [(k, v)]

/-- JS `jid.replace('@s.whatsapp.net', '')`: drop the first occurrence of
the suffix. -/
def jidPhone (jid : String) : String :=
  String.mk (replaceFirstChars jid.data "@s.whatsapp.net".data [])

/-- The merchant's own chat address `codigoPais + whatsApp + '@s.whatsapp.net'`. -/
def companyJid (e : Empresa) : String :=
  e.codigoPais ++ e.whatsApp.getD "" ++ "@s.whatsapp.net"

/-- Truthiness of `empresa.whatsApp`. -/
def whatsAppTruthy (e : Empresa) : Bool :=
  match e.whatsApp with
  | some w => w ≠ ""
  | none => false

/-- The engine's insufficient-stock message quoting the available amount. -/
def insufficientStockMsg (available : Int) : String :=
  "Stock insuficiente. Disponibles: " ++ toString available ++ "."

/-- The `✅ Añadido` confirmation (note the space before the optional
presentation segment, as in the template literal). -/
def addedMsg (q : Int) (nombre : String) (pres : Option String) : String :=
  "✅ Añadido: " ++ toString q ++ " x " ++ nombre ++ " " ++
    (match pres with
     | some p => "(" ++ p ++ ")"
     | none => "") ++ "."

/-- The cart upsert both add sites perform: `cart.find(item => item.sku ===
matchSku && item.presentacion === matchPres)`, then `existingItem.quantity +=
qty` on the first match, else `cart.push(newItem)`. -/
def mergeLine (cart : List CartItem) (matchSku : String) (matchPres : Option String)
    (qty : Int) (newItem : CartItem) : List CartItem :=
  match cart with
  | [] => [newItem]
  | it :: rest =>
    if it.sku = matchSku ∧ it.presentacion = matchPres then
      { it with quantity := it.quantity + qty } :: rest
    else it :: mergeLine rest matchSku matchPres qty newItem

/-- The order total `cart.reduce((sum, item) => sum + item.quantity *
item.precioVenta, 0)`. -/
def cartTotal (cart : List CartItem) : Int :=
  cart.foldl (fun a it => a + it.quantity * it.precioVenta) 0

namespace Engine

/-! ### Conversation engine handlers (refactored `ConversationService`) -/

/-- Handler `handleShowCart`. -/
def handleShowCart (userJid : String) (s : Session) : HRes :=
  let cartPrompt := buildCartPrompt s.cart
  if s.cart.length > 0 then
    (some s, [(userJid, cartPrompt),
      (userJid, buildOptionsPrompt
        [(.FINALIZE_ORDER, some "Confirmar pedido"), (.RETURN_TO_CATEGORIES, none),
         (.REPEAT_MENU, none), (.CANCEL, none)])])
  else (some s, [(userJid, cartPrompt)])

/-- The customer-data confirmation prompt of `handleCreateOrder`. -/
def customerDataPrompt (nombreActual direccionActual telefonoActual : String) : String :=
  "Para procesar tu pedido, necesitamos confirmar tus datos de entrega.\n\n" ++
  "*Datos actuales:*\n" ++
  "*Nombre:* " ++ nombreActual ++ "\n" ++
  "*Dirección:* " ++ direccionActual ++ "\n" ++
  "*Teléfono:* " ++ telefonoActual ++ "\n\n" ++
  "*Para confirmar o actualizar, por favor envía tu información en un solo mensaje con el siguiente formato:*\n\n" ++
  "*Nombre:* Tu nombre completo\n" ++
  "*Dirección:* Tu dirección de entrega\n" ++
  "*Teléfono:* Tu número de contacto (opcional)"

/-- Handler `handleCreateOrder`: reject an empty cart, else move to
`AWAITING_CUSTOMER_DATA` and prompt for delivery data. -/
def handleCreateOrder (env : Env) (userJid : String) (s : Session) : HRes :=
  if s.cart.length = 0 then (some s, [(userJid, "Tu carrito está vacío.")])
  else
    let cliente := env.findOrCreateCliente userJid
    let s2 := { s with state := AWAITING_CUSTOMER_DATA }
    let nombreActual := orDefault cliente.nombre "No registrado"
    let direccionActual := orDefault cliente.direccion "No registrada"
    let telefonoActual := orDefault cliente.telefono (jidPhone userJid)
    (some s2, [(userJid, customerDataPrompt nombreActual direccionActual telefonoActual)])

/-- The options footer sent with a product detail. -/
def detailOptions : String :=
  buildOptionsPrompt
    [(.CHAT, none), (.GO_BACK, none), (.RETURN_TO_CATEGORIES, none), (.VIEW_CART, none),
     (.FINALIZE_ORDER, none), (.REPEAT_MENU, none), (.CANCEL, none)]

/-- One line of the detail presentation list. -/
def presDetailLine (idx : Nat) (name : String) (p : Pres) : String :=
  let n := toString (idx + 1)
  if p.existencia > 0 then "*" ++ n ++ "*. " ++ name ++ " (" ++ toFixed2 p.precioventa ++ ")"
  else "~*" ++ n ++ "*. " ++ name ++ "~ (Agotado)"

/-- Handler `handleProductDetail`: resolve the identifier through
`numberedOptions` (else uppercase it), snapshot the product into
`pendingProduct` and move to `AWAITING_PRODUCT_ACTION`. -/
def handleProductDetail (env : Env) (userJid : String) (s : Session)
    (itemIdentifier : String) : HRes :=
  let sku := resolveOr s.numberedOptions itemIdentifier (jsToUpper itemIdentifier)
  match s.company with
  | none => (none, [])
  | some comp =>
    match env.findProductBySku comp.id sku with
    | some producto =>
      let pend : PendingProduct :=
        ⟨producto.sku, producto.nombreCorto, producto.precioVenta, producto.existencia,
         producto.presentacion⟩
      let detailPrompt := buildProductDetailPrompt producto
      let s2 := { s with pendingProduct := some pend, state := AWAITING_PRODUCT_ACTION,
                         numberedOptions := [] }
      if ¬ producto.presentacion.isEmpty then
        let presentations := producto.presentacion
        let s3 := { s2 with numberedOptions := bindNumbered (presentations.map (fun p => p.1)) }
        let presentationList := String.intercalate "\n"
          (presentations.enum.map (fun q => presDetailLine q.1 q.2.1 q.2.2))
        let examplePresentation := ((presentations.head?).map (fun p => p.1)).getD "presentacion"
        let orderInstruction :=
          "Para agregar, envía el número o nombre de la presentación y la cantidad (ej: *1 2* o *" ++
            examplePresentation ++ " 2*).\n\nPresentaciones:\n" ++ presentationList
        (some s3, [(userJid, detailPrompt ++ "\n\n" ++ orderInstruction), (userJid, detailOptions)])
      else
        (some s2, [(userJid, detailPrompt ++
            "\n\nPara agregar al carrito, envía la cantidad (ej: *2*)."),
          (userJid, detailOptions)])
    | none =>
      (some s, [(userJid, "No se encontró el producto con identificador \"" ++
        itemIdentifier ++ "\".")])

/-- Handler `showAllProducts`: render the full in-stock catalog and move to
`BROWSING_PRODUCTS`. -/
def showAllProducts (env : Env) (userJid : String) (s : Session) : HRes :=
  let s2 := { s with state := BROWSING_PRODUCTS }
  match s2.company with
  | none => (none, [])
  | some comp =>
    let productos := env.findAllProducts comp.id
    let instruction := "Para ordenar, envía: *SKU Cantidad* (ej: *PROD01 2*)"
    let prompt := buildProductListPrompt productos instruction false
      "Actualmente no tenemos productos en el catálogo."
    (some s2, [(userJid, prompt),
      (userJid, buildOptionsPrompt
        [(.CHAT, none), (.DETAIL, some "Ver Detalle (ej: de SKU)"), (.VIEW_CART, none),
         (.FINALIZE_ORDER, none), (.REPEAT_MENU, none), (.CANCEL, none)])])

/-- Handler `showCategories`: render the category menu (binding numbered
options to lowercased category names), or fall back to the full catalog. -/
def showCategories (env : Env) (userJid : String) (s : Session) : HRes :=
  let categories := s.availableCategories
  if categories.isEmpty then
    hseq (some s, [(userJid, "No hay categorías definidas.")]) (showAllProducts env userJid)
  else
    let s2 := { s with state := SELECTING_CATEGORY,
                       numberedOptions := bindNumbered (categories.map jsToLower) }
    (some s2, [(userJid, buildCategoryListPrompt categories),
      (userJid, buildOptionsPrompt
        [(.CHAT, none), (.RETURN_TO_COMPANIES, none), (.REPEAT_MENU, none), (.CANCEL, none)])])

/-- Handler `handleCompanySelection`: exact (collaborator-side) name lookup;
on success store the company context, greet and show categories or the full
catalog; otherwise list all merchants as a numbered menu. -/
def handleCompanySelection (env : Env) (userJid : String) (s : Session)
    (messageText : String) : HRes :=
  match env.findOneByName messageText with
  | some empresa =>
    let s2 := { s with company := some ⟨empresa.code, empresa.id, empresa.nombre⟩ }
    let welcome := orDefault empresa.saludoBienvenida ("¡Bienvenido a " ++ empresa.nombre ++ "!")
    let categories := env.findProductCategories empresa.id
    if ¬ categories.isEmpty then
      hseq (some { s2 with availableCategories := categories }, [(userJid, welcome)])
        (showCategories env userJid)
    else
      hseq (some s2, [(userJid, welcome)]) (showAllProducts env userJid)
  | none =>
    let empresas := env.findAllEmpresas
    if empresas.length > 0 then
      (some { s with numberedOptions := bindNumbered (empresas.map (fun e => jsToLower e.nombre)) },
       [(userJid, buildCompanyListPrompt empresas), (userJid, buildGeneralOptionsPrompt)])
    else (some s, [(userJid, "No hay empresas configuradas.")])

/-- Handler `resetSession`: clear company, cart, state, categories, numbered
options, pending product and previous state; optionally send a confirmation
and re-prompt company selection. Timer cleanup is process-local bookkeeping
outside this model. -/
def resetSession (env : Env) (userJid : String) (s : Session) (sendMsg : Bool)
    (msg : Option String) : HRes :=
  let s2 := { s with company := none, cart := [], state := SELECTING_COMPANY,
                     availableCategories := [], numberedOptions := [],
                     pendingProduct := none, previousState := none }
  if sendMsg then
    let resetMessage := orDefault msg "Sesión reiniciada."
    hseq (some s2, [(userJid, resetMessage)])
      (fun s3 => handleCompanySelection env userJid s3 "")
  else (some s2, [])

/-- Handler `startChatting`: requires a company context; saves the current
state in `previousState` and enters `CHATTING`. -/
def startChatting (userJid : String) (s : Session) : HRes :=
  match s.company with
  | none => (some s, [(userJid, "Por favor, primero elige una empresa.")])
  | some comp =>
    let s2 := { s with previousState := some s.state, state := CHATTING }
    (some s2, [(userJid, buildChatStartPrompt comp.name)])

/-- The quantity-invalid redirect notice of `handleOrdering`. -/
def qtyInvalidDetailMsg : String :=
  "Cantidad no válida. Te mostraré el detalle del producto para que puedas agregarlo."

/-- The tail of `handleOrdering` after identifier/quantity/presentation
resolution: stock check, then cart upsert and confirmation. -/
def orderingFinish (userJid : String) (s : Session) (sku : String) (producto : Producto)
    (quantity : Int) (presentationName : Option String) : HRes :=
  let selectedPresentation := presentationName.bind (presGet producto.presentacion)
  let itemStock := (selectedPresentation.map (fun p => p.existencia)).getD producto.existencia
  if itemStock < quantity then (some s, [(userJid, insufficientStockMsg itemStock)])
  else
    let price := (selectedPresentation.map (fun p => p.precioventa)).getD producto.precioVenta
    let newItem : CartItem :=
      ⟨producto.sku, quantity, price, producto.nombreCorto, presentationName⟩
    let s2 := { s with cart := mergeLine s.cart sku presentationName quantity newItem }
    (some s2, [(userJid, addedMsg quantity producto.nombreCorto presentationName)])

/-- Handler `handleOrdering` (refactored engine): parse `SKU [presentación...]
Cantidad`, treating the first token directly as an uppercased raw SKU. -/
def handleOrdering (env : Env) (userJid : String) (s : Session) (messageText : String) : HRes :=
  let parts := jsSplitWs messageText
  if parts.length < 2 then
    (some s, [(userJid, "Formato no reconocido. Para ordenar, usa: *SKU [presentacion] Cantidad*")])
  else
    let sku := jsToUpper (parts.headD "")
    match s.company with
    | none => (none, [])
    | some comp =>
      match env.findProductBySku comp.id sku with
      | none => (some s, [(userJid, "Producto con SKU \"" ++ sku ++ "\" no encontrado.")])
      | some producto =>
        match jsParseInt (parts.getLastD "") with
        | none =>
          hseq (some s, [(userJid, qtyInvalidDetailMsg)])
            (fun s2 => handleProductDetail env userJid s2 sku)
        | some quantity =>
          if quantity ≤ 0 then
            hseq (some s, [(userJid, qtyInvalidDetailMsg)])
              (fun s2 => handleProductDetail env userJid s2 sku)
          else
            if 2 < parts.length then
              if producto.presentacion.isEmpty then
                hseq (some s, [(userJid, "El producto " ++ producto.nombreCorto ++
                    " no tiene presentaciones. Te mostraré el detalle.")])
                  (fun s2 => handleProductDetail env userJid s2 sku)
              else
                let presentationIdentifier := String.intercalate " " ((parts.drop 1).dropLast)
                match producto.presentacion.find? (fun kv => jsToLower kv.1 = presentationIdentifier) with
                | none =>
                  hseq (some s, [(userJid, "Presentación no válida para " ++
                      producto.nombreCorto ++ ". Te mostraré el detalle.")])
                    (fun s2 => handleProductDetail env userJid s2 sku)
                | some kv => orderingFinish userJid s sku producto quantity (some kv.1)
            else
              if ¬ producto.presentacion.isEmpty then
                hseq (some s, [(userJid, "El producto " ++ producto.nombreCorto ++
                    " tiene presentaciones. Debes especificar una. Te mostraré el detalle.")])
                  (fun s2 => handleProductDetail env userJid s2 sku)
              else orderingFinish userJid s sku producto quantity none

/-- The quantity/presentation step of `handleAwaitingQuantityForProduct`
after format splitting. -/
def qfpQuantity (userJid : String) (s : Session) (pendingProduct : PendingProduct)
    (quantityStr : String) (presentationIdentifier : Option String) : HRes :=
  let invalid : HRes := (some s, [(userJid, "Cantidad no válida. Debe ser un número mayor a 0.")])
  match jsParseInt quantityStr with
  | none => invalid
  | some quantity =>
    if quantity ≤ 0 then invalid
    else
      let presentationName :=
        presentationIdentifier.map (fun pid => resolveOr s.numberedOptions pid pid)
      let selectedPresentation := presentationName.bind (presGet pendingProduct.presentacion)
      if presentationIdentifier.isSome ∧ selectedPresentation.isNone then
        (some s, [(userJid, "Presentación \"" ++ presentationIdentifier.getD "" ++ "\" no válida.")])
      else
        let itemStock := (selectedPresentation.map (fun p => p.existencia)).getD
          pendingProduct.existencia
        if itemStock < quantity then (some s, [(userJid, insufficientStockMsg itemStock)])
        else
          let price := (selectedPresentation.map (fun p => p.precioventa)).getD
            pendingProduct.precioVenta
          let newItem : CartItem :=
            ⟨pendingProduct.sku, quantity, price, pendingProduct.nombreCorto, presentationName⟩
          let s2 := { s with
            cart := mergeLine s.cart pendingProduct.sku presentationName quantity newItem,
            state := BROWSING_PRODUCTS, pendingProduct := none, numberedOptions := [] }
          (some s2, [(userJid, addedMsg quantity pendingProduct.nombreCorto presentationName),
            (userJid, "Puedes seguir agregando productos o elegir una opción:\n" ++
              buildOptionsPrompt
                [(.CHAT, none), (.VIEW_CART, none), (.FINALIZE_ORDER, none),
                 (.RETURN_TO_CATEGORIES, none), (.REPEAT_MENU, none), (.CANCEL, none)])])

/-- Handler `handleAwaitingQuantityForProduct`: finalize shortcut, corrupted
pending-product guard, `presentación cantidad` / bare `cantidad` parsing,
stock check, cart upsert, return to browsing. The Mongoose map/object hotfix
is a representation coercion with no effect in this embedding. -/
def handleAwaitingQuantityForProduct (env : Env) (userJid : String) (s : Session)
    (messageText : String) : HRes :=
  if messageText = (cmdInfo .FINALIZE_ORDER).mnemonic then handleCreateOrder env userJid s
  else
    match s.pendingProduct with
    | none => resetSession env userJid s true (some "Error: No hay producto pendiente.")
    | some pendingProduct =>
      let parts := jsSplitWs messageText
      if ¬ pendingProduct.presentacion.isEmpty then
        if parts.length < 2 then
          (some s, [(userJid,
            "Formato incorrecto. Envía la presentación y la cantidad (ej: *Grande 2* o *1 2*).")])
        else
          qfpQuantity userJid s pendingProduct (parts.getLastD "")
            (some (String.intercalate " " parts.dropLast))
      else
        if parts.length ≠ 1 then
          (some s, [(userJid, "Formato incorrecto. Envía solo la cantidad (ej: *2*).")])
        else qfpQuantity userJid s pendingProduct (parts.headD "") none

/-- Handler `handleAwaitingProductAction`: corrupted-state guard, then action
dispatch against the pending product (no action means a bare quantity). -/
def handleAwaitingProductAction (env : Env) (userJid : String) (s : Session)
    (messageText : String) (command : Option CommandKey) : HRes :=
  let action :=
    match command with
    | some c => some c
    | none => commandLookup messageText
  match s.pendingProduct with
  | none => resetSession env userJid s true (some "Error: No hay producto pendiente.")
  | some _ =>
    match action with
    | none => handleAwaitingQuantityForProduct env userJid s messageText
    | some .CHAT => startChatting userJid s
    | some .GO_BACK => showCategories env userJid { s with pendingProduct := none }
    | some .VIEW_CART =>
      hseq (handleShowCart userJid s) (fun s2 =>
        match s2.pendingProduct with
        | some pp => handleProductDetail env userJid s2 pp.sku
        | none => (none, []))
    | some .FINALIZE_ORDER => handleCreateOrder env userJid s
    | some _ =>
      hseq (some s, [(userJid, "Opción no válida.")]) (fun s2 =>
        match s2.pendingProduct with
        | some pp => handleProductDetail env userJid s2 pp.sku
        | none => (none, []))

/-- Handler `handleCategorySelection`. -/
def handleCategorySelection (env : Env) (userJid : String) (s : Session)
    (messageText : String) (command : Option CommandKey) : HRes :=
  if command = some .CHAT then startChatting userJid s
  else if command = some .FINALIZE_ORDER then handleCreateOrder env userJid s
  else if command = some .RETURN_TO_COMPANIES then
    resetSession env userJid s true (some "Regresando a la selección de empresas.")
  else
    match s.availableCategories.find? (fun c => jsToLower c = messageText) with
    | some chosenCategory =>
      let s2 := { s with state := BROWSING_PRODUCTS, numberedOptions := [] }
      match s2.company with
      | none => (none, [])
      | some comp =>
        let productos := env.findProductsByCategory comp.id chosenCategory
        let instruction := "Para ordenar, envía: *SKU [presentación] Cantidad* (ej: *PROD01 [50g] 2*)"
        let prompt := buildProductListPrompt productos instruction false
          "No hay productos en esta categoría."
        (some s2, [(userJid, prompt),
          (userJid, buildOptionsPrompt
            [(.CHAT, none), (.DETAIL, some "Ver Detalle (ej: de SKU)"),
             (.RETURN_TO_CATEGORIES, none), (.VIEW_CART, none), (.FINALIZE_ORDER, none),
             (.REPEAT_MENU, none), (.CANCEL, none)])])
    | none =>
      hseq (some s, [(userJid, "Categoría no válida. Por favor, elige una de la lista.")])
        (showCategories env userJid)

/-- Handler `handleProductBrowsing`: sub-command dispatch, the
`detail-mnemonic identifier` pattern, else an order attempt. -/
def handleProductBrowsing (env : Env) (userJid : String) (s : Session)
    (messageText : String) (command : Option CommandKey) : HRes :=
  let parts := jsSplitWs messageText
  let firstPart := parts.headD ""
  match command with
  | some .CHAT => startChatting userJid s
  | some .CREATE_ORDER => handleCreateOrder env userJid s
  | some .FINALIZE_ORDER => handleCreateOrder env userJid s
  | some .VIEW_CART => handleShowCart userJid s
  | some .RETURN_TO_CATEGORIES => showCategories env userJid s
  | some .DETAIL =>
    (some s, [(userJid, "Por favor, indica el SKU del producto que quieres ver (ej: de 001).")])
  | _ =>
    if firstPart = (cmdInfo .DETAIL).mnemonic ∧ parts.length > 1 then
      handleProductDetail env userJid s (parts.getD 1 "")
    else handleOrdering env userJid s messageText

/-- First occurrence of the lazily-captured labelled field of
`parseCustomerData`: find `label`, skip whitespace, capture until the first
terminator (or the end), trim. -/
def lazyCapture (cs : List Char) (terms : List (List Char)) : List Char :=
  match cs with
  | [] => []
  | c :: rest =>
    if terms.any (fun t => t.isPrefixOf (c :: rest)) then []
    else c :: lazyCapture rest terms

/-- One labelled-line extraction of `parseCustomerData` (the inputs it reads
are already lowercased, which subsumes the regex's `i` flag). -/
def parseField (text label : String) (terminators : List String) : Option String :=
  match strFindIdx text.data label.data with
  | none => none
  | some i =>
    let after := (text.data.drop (i + label.data.length)).dropWhile Char.isWhitespace
    some (jsTrim (String.mk (lazyCapture after (terminators.map String.data))))

/-- The `parseCustomerData` extraction: (nombre, dirección, teléfono). -/
def parseCustomerData (message : String) : Option String × Option String × Option String :=
  (parseField message "nombre:" ["\n*dirección:", "\n*teléfono:"],
   parseField message "dirección:" ["\n*nombre:", "\n*teléfono:"],
   parseField message "teléfono:" ["\n*nombre:", "\n*dirección:"])

/-- The company-bound order notification text of `executeOrderCreation`. -/
def orderNotification (userJid : String) (cliente : Cliente) (cart : List CartItem)
    (items : List PedidoItem) (total : Int) : String :=
  let customerName := orDefault cliente.nombre "Cliente"
  let customerAddress := orDefault cliente.direccion "No especificada"
  let customerPhone := orDefault cliente.telefono (jidPhone userJid)
  let link := "https://wa.me/" ++ jidPhone userJid
  let header := "¡Nuevo Pedido Recibido!\n\n*Cliente:* " ++ customerName ++
    "\n*Dirección de Entrega:* " ++ customerAddress ++
    "\n*Teléfono de Contacto:* " ++ customerPhone ++
    "\n*WhatsApp Cliente:* " ++ jidPhone userJid ++
    "\n*Enlace para chatear:* " ++ link ++ "\n\n*Detalles del Pedido:*\n"
  let lines := items.map (fun item =>
    let cartItem := cart.find? (fun c => c.sku = item.sku ∧ c.presentacion = item.presentacion)
    let itemName := (cartItem.map (fun c => c.nombreCorto)).getD item.sku
    let presentation :=
      match item.presentacion with
      | some p => " (" ++ p ++ ")"
      | none => ""
    let price :=
      match cartItem with
      | some c => " (" ++ toFixed2 c.precioVenta ++ " c/u)"
      | none => ""
    "- " ++ toString item.cantidad ++ " x " ++ itemName ++ presentation ++ price ++ "\n")
  header ++ String.join lines ++ "\n*Total:* " ++ toFixed2 total ++
    "\n\nPor favor, contacta al cliente para coordinar la entrega."

/-- The generic order-failure message of `executeOrderCreation`. -/
def orderErrorMsg : String :=
  "🔴 Hubo un error al procesar tu pedido. Por favor, contacta a soporte."

/-- The per-line stock-decrement loop inside the same try/catch as the order
create. -/
def decrementAll (env : Env) (empresaId : String) : List PedidoItem → Except Unit Unit
  | [] => .ok ()
  | it :: rest =>
    match env.decreaseStock empresaId it.sku it.cantidad it.presentacion with
    | .error e => .error e
    | .ok _ => decrementAll env empresaId rest

/-- Handler `executeOrderCreation`: build the DTO, persist the order and
decrement stock inside one try/catch (failure leaves the session untouched
and reports a generic error), then notify the merchant, send the farewell
and silently reset. -/
def executeOrderCreation (env : Env) (userJid : String) (s : Session) : HRes :=
  match s.company with
  | none => (none, [])
  | some comp =>
    match env.findEmpresaById comp.id with
    | none => (none, [])
    | some empresa =>
      let cliente := env.findOrCreateCliente userJid
      let total := cartTotal s.cart
      let items := s.cart.map (fun it => (⟨it.sku, it.quantity, it.presentacion⟩ : PedidoItem))
      let pedidoDto : CreatePedidoDto := ⟨cliente.id, empresa.id, items, total⟩
      match env.createPedido pedidoDto with
      | .error _ => (some s, [(userJid, orderErrorMsg)])
      | .ok _ =>
        match decrementAll env comp.id items with
        | .error _ => (some s, [(userJid, orderErrorMsg)])
        | .ok _ =>
          let notifMsgs : List Msg :=
            if whatsAppTruthy empresa then
              [(companyJid empresa, orderNotification userJid cliente s.cart items total)]
            else []
          let farewell := orDefault empresa.saludoDespedida
            "¡Gracias por tu compra! Tu pedido ha sido procesado."
          hseq (some s, notifMsgs ++ [(userJid, farewell)])
            (fun s2 => resetSession env userJid s2 false none)

/-- Handler `handleAwaitingCustomerData`: labelled-line extraction (name or
address required, JS-falsy `""` counts as missing), customer upsert (the
external directory is not tracked here), then order execution. -/
def handleAwaitingCustomerData (env : Env) (userJid : String) (s : Session)
    (messageText : String) : HRes :=
  let data := parseCustomerData messageText
  if (data.1.getD "") = "" ∧ (data.2.1.getD "") = "" then
    (some s, [(userJid, "No pude entender tus datos. Por favor, envíalos en el formato solicitado.")])
  else executeOrderCreation env userJid s

/-- Handler `handleGoBack`. -/
def handleGoBack (env : Env) (userJid : String) (s : Session) : HRes :=
  if s.state = SELECTING_CATEGORY then
    resetSession env userJid s true (some "Regresando a la selección de empresas.")
  else if s.state = BROWSING_PRODUCTS then showCategories env userJid s
  else if s.state = AWAITING_PRODUCT_ACTION then
    let s2 := { s with pendingProduct := none }
    if ¬ s2.availableCategories.isEmpty then showCategories env userJid s2
    else showAllProducts env userJid s2
  else (some s, [(userJid, "No hay un menú anterior al que regresar.")])

/-- Handler `handleRepeatMenu`. -/
def handleRepeatMenu (env : Env) (userJid : String) (s : Session) : HRes :=
  if s.state = SELECTING_COMPANY then handleCompanySelection env userJid s ""
  else if s.state = SELECTING_CATEGORY then showCategories env userJid s
  else if s.state = BROWSING_PRODUCTS then showAllProducts env userJid s
  else if s.state = AWAITING_PRODUCT_ACTION then
    match s.pendingProduct with
    | some pp => handleProductDetail env userJid s pp.sku
    | none => resetSession env userJid s true (some "Error, no hay producto pendiente.")
  else (some s, [(userJid, "No hay un menú para repetir en este momento.")])

/-- Handler `stopChatting`: restore `previousState` (else
`SELECTING_CATEGORY`) and repeat the menu. -/
def stopChatting (env : Env) (userJid : String) (s : Session) : HRes :=
  let s2 := { s with state := orDefault s.previousState SELECTING_CATEGORY,
                     previousState := none }
  hseq (some s2, [(userJid, "Has finalizado el chat.")]) (handleRepeatMenu env userJid)

/-- Handler `handleChatting`: exit on STOP_CHATTING; otherwise relay the
message verbatim to the merchant's own address, tagged with the hidden
`[ref:<customer address>]` reference. -/
def handleChatting (env : Env) (userJid : String) (s : Session) (messageText : String)
    (command : Option CommandKey) : HRes :=
  if command = some .STOP_CHATTING then stopChatting env userJid s
  else
    match s.company with
    | none => (none, [])
    | some comp =>
      match env.findEmpresaById comp.id with
      | some empresa =>
        if whatsAppTruthy empresa then
          let cliente := env.findOrCreateCliente userJid
          let customerName := orDefault cliente.nombre "Cliente sin nombre"
          let vendorMessage :=
            buildVendorChatMessage customerName (jidPhone userJid) messageText ++
              "\n\n[ref:" ++ userJid ++ "]"
          (some s, [(companyJid empresa, vendorMessage), (userJid, "Tu mensaje ha sido enviado.")])
        else
          hseq (some s, [(userJid, "Lo sentimos, esta empresa no tiene un chat habilitado.")])
            (stopChatting env userJid)
      | none =>
        hseq (some s, [(userJid, "Lo sentimos, esta empresa no tiene un chat habilitado.")])
          (stopChatting env userJid)

/-- The per-state dispatch `processState`; an unrecognized state degrades to
a forced reset with an explanatory message. -/
def processState (env : Env) (s : Session) (userJid messageText : String)
    (command : Option CommandKey) : HRes :=
  if s.state = SELECTING_COMPANY then handleCompanySelection env userJid s messageText
  else if s.state = SELECTING_CATEGORY then
    handleCategorySelection env userJid s messageText command
  else if s.state = BROWSING_PRODUCTS then
    handleProductBrowsing env userJid s messageText command
  else if s.state = AWAITING_PRODUCT_ACTION then
    handleAwaitingProductAction env userJid s messageText command
  else if s.state = AWAITING_QUANTITY_FOR_PRODUCT then
    handleAwaitingQuantityForProduct env userJid s messageText
  else if s.state = AWAITING_CUSTOMER_DATA then
    handleAwaitingCustomerData env userJid s messageText
  else if s.state = CHATTING then handleChatting env userJid s messageText command
  else resetSession env userJid s true (some "Estado no reconocido, reiniciando sesión.")

end Engine

/-! ### Vendor-reply interception -/

/-- Negation of the regex class `\s` (the inputs compared are ASCII). -/
def isNonSpace (c : Char) : Bool := ¬ c.isWhitespace

/-- The literal tail `@s\\.whatsapp\\.net` of the capture group: `@s`, one
literal backslash, any character, `whatsapp`, one literal backslash, any
character, `net`. -/
def refGroupSuffix (cs : List Char) : Option (List Char × List Char) :=
  match cs with
  | '@' :: 's' :: '\\' :: c1 :: 'w' :: 'h' :: 'a' :: 't' :: 's' :: 'a' :: 'p' :: 'p' ::
      '\\' :: c2 :: 'n' :: 'e' :: 't' :: rest =>
    some (['@', 's', '\\', c1, 'w', 'h', 'a', 't', 's', 'a', 'p', 'p', '\\', c2, 'n', 'e', 't'],
      rest)
  | _ => none

/-- The closing `\\\]` of the pattern: a literal backslash then `]`. -/
def refClose : List Char → Bool
  | '\\' :: ']' :: _ => true
  | _ => false

/-- Greedy `\S+` with backtracking, then the group tail and the closing
bracket; returns the capture group. -/
def refGroupGo (accRev : List Char) (cs : List Char) : Option String :=
  let tryHere : Option String :=
    if accRev.isEmpty then none
    else
      match refGroupSuffix cs with
      | some pr => if refClose pr.2 then some (String.mk (accRev.reverse ++ pr.1)) else none
      | none => none
  match cs with
  | [] => tryHere
  | c :: rest =>
    if isNonSpace c then
      match refGroupGo (c :: accRev) rest with
      | some r => some r
      | none => tryHere
    else tryHere

/-- Try the whole pattern at the head of `cs`: a literal backslash, `[ref:`,
then the capture group. -/
def refMatchAt (cs : List Char) : Option String :=
  match cs with
  | '\\' :: '[' :: 'r' :: 'e' :: 'f' :: ':' :: rest => refGroupGo [] rest
  | _ => none

/-- Leftmost-first scan of the pattern. -/
def vendorRefScan : List Char → Option String
  | [] => none
  | c :: rest =>
    match refMatchAt (c :: rest) with
    | some r => some r
    | none => vendorRefScan rest

/-- The capture of `originalQuotedMessage.match(/\\\[ref:(\S+@s\\.whatsapp\\.net)\\\]/)`.
In a JS regex literal `\\` matches one literal backslash and `\\.` a literal
backslash followed by any character, so this pattern only matches a tag
written with literal backslashes (`\[ref:...\]`). -/
def vendorRefMatch (s : String) : Option String := vendorRefScan s.data

/-- One inbound message event: sender, bot session, text, and the text of the
quoted message when the event is a reply (the Baileys `contextInfo`
extraction collapsed to its result). -/
structure InboundMsg where
  fromJid : String
  sessionId : String
  text : String
  quoted : Option String
deriving DecidableEq

/-- `handleVendorReply`: a message from a registered merchant number that
quotes a prior message whose text matches the reference pattern is relayed
to the extracted customer address and reported as handled. -/
def handleVendorReply (env : Env) (m : InboundMsg) : Bool × List Msg :=
  let vendorPhoneNumber := String.mk (m.fromJid.data.takeWhile (fun c => c ≠ '@'))
  match env.findByWhatsApp vendorPhoneNumber with
  | none => (false, [])
  | some empresa =>
    match m.quoted with
    | none => (false, [])
    | some originalQuotedMessage =>
      match vendorRefMatch originalQuotedMessage with
      | some customerJid =>
        if customerJid ≠ "" then
          (true, [(customerJid, "Respuesta de " ++ empresa.nombre ++ ":\n" ++ m.text)])
        else (false, [])
      | none => (false, [])

/-! ### Session store (`SessionsService`) -/

/-- The persisted session collection. -/
abbrev Store := List Session

/-- Mongoose `save` of a session document (keyed by the unique `userJid`). -/
def saveSession (store : Store) (s : Session) : Store :=
  if store.any (fun t => t.userJid = s.userJid) then
    store.map (fun t => if t.userJid = s.userJid then s else t)
  else store ++ [s]

/-- The document a fresh `findOrCreate` builds: initial state, empty cart,
schema defaults elsewhere. -/
def freshSession (userJid sessionId : String) : Session :=
  ⟨userJid, sessionId, SELECTING_COMPANY, none, [], [], none, none, [], none⟩

/-- `SessionsService.findOrCreate`: load the session by jid, refreshing its
`sessionId` when the bot session changed, else create it. -/
def findOrCreate (store : Store) (userJid sessionId : String) : Session × Store :=
  match store.find? (fun t => t.userJid = userJid) with
  | some s =>
    if s.sessionId ≠ sessionId then
      let s2 := { s with sessionId := sessionId }
      (s2, saveSession store s2)
    else (s, store)
  | none =>
    let s := freshSession userJid sessionId
    (s, saveSession store s)

/-- `SessionsService.clearAllSessions`: `deleteMany({})` and its count. -/
def clearAllSessions (store : Store) : Store × Nat := ([], store.length)

/-- `SessionsService.delete`: `deleteOne({userJid})` removes the first
matching document, with its count. -/
def deleteOneSession : Store → String → Store × Nat
  | [], _ => ([], 0)
  | s :: rest, jid =>
    if s.userJid = jid then (rest, 1)
    else
      let r := deleteOneSession rest jid
      (s :: r.1, r.2)

/-! ### Top-level turn processing -/

namespace Engine

/-- The inactivity termination handler `endInactiveSession`: notify the user,
then hard-delete the session document. -/
def endInactiveSession (store : Store) (userJid : String) : Store × List Msg :=
  let r := deleteOneSession store userJid
  (r.1, [(userJid, "Tu sesión ha sido cerrada por inactividad.")])

/-- The top-level `handleIncomingMessage` turn: vendor-reply interception,
the administrative purge command, session load, numbered-option substitution,
universal-command resolution, per-state dispatch, session save; its try/catch
is the single error boundary. Timer resets are process-local bookkeeping
outside this model. -/
def handleIncomingMessage (env : Env) (store : Store) (m : InboundMsg) : Store × List Msg :=
  let messageText := jsToLower (jsTrim m.text)
  let vr := handleVendorReply env m
  if vr.1 then (store, vr.2)
  else
    if messageText = "borrar_sesiones_clientes_ahora" then
      let r := clearAllSessions store
      (r.1, [(m.fromJid, "Se han borrado " ++ toString r.2 ++ " sesiones.")])
    else
      let fc := findOrCreate store m.fromJid m.sessionId
      let session := fc.1
      let store1 := fc.2
      let messageText1 := resolveOr session.numberedOptions messageText messageText
      let command := commandLookup messageText1
      let hres : HRes :=
        if command = some .CANCEL ∨ command = some .FINISH ∨ command = some .END then
          resetSession env m.fromJid session true none
        else if command = some .GO_BACK then handleGoBack env m.fromJid session
        else if command = some .REPEAT_MENU then handleRepeatMenu env m.fromJid session
        else processState env session m.fromJid messageText1 command
      match hres with
      | (some s2, ms) => (saveSession store1 s2, ms)
      | (none, ms) => (store1, ms ++ [(m.fromJid, "Lo sentimos, ocurrió un error al procesar tu mensaje.")])

end Engine

namespace Legacy

/-! ### Legacy `handleOrdering` (`conversation.service.ts`) -/

/-- The anchored order pattern `/^(\S+)\s+(\d+)$/`. -/
def legacyOrderMatch (t : String) : Option (String × String) :=
  let cs := t.data
  let idChars := cs.takeWhile isNonSpace
  let rest1 := cs.drop idChars.length
  let wsRun := rest1.takeWhile Char.isWhitespace
  let digits := rest1.drop wsRun.length
  if idChars.isEmpty ∨ wsRun.isEmpty ∨ digits.isEmpty ∨ ¬ digits.all Char.isDigit then none
  else some (String.mk idChars, String.mk digits)

/-- The legacy flat-product cart write: `existingItem.quantity = quantity`
(replace) on the first flat line of the SKU, else push. -/
def legacySetFlat (cart : List CartItem) (producto : Producto) (quantity : Int) : List CartItem :=
  match cart with
  | [] => [⟨producto.sku, quantity, producto.precioVenta, producto.nombreCorto, none⟩]
  | it :: rest =>
    if it.sku = producto.sku ∧ (it.presentacion.getD "") = "" then
      { it with quantity := quantity } :: rest
    else it :: legacySetFlat rest producto quantity

/-- The legacy browsing options footer. -/
def legacyOptionsMsg : String :=
  "Opciones:\n*DE*. Ver Detalle (ej: DE 1)\n*RC*. Volver a categorías (o escribe *regresar*)\n*VC*. Ver carrito\n*FP*. Finalizar pedido\n\nPara agregar otro producto, usa el formato *SKU/Número Cantidad*. O escribe *cancelar* para reiniciar."

/-- The legacy fallback options footer when no order pattern matched. -/
def legacyFallbackOptionsMsg : String :=
  "Opciones:\n*DE*. Ver Detalle (ej: DE 1)\n*RC*. Volver a categorías (o escribe *regresar*)\n*VC*. Ver carrito\n*FP*. Finalizar pedido\n\nO escribe *cancelar* para reiniciar."

/-- The legacy `rc`/`vc`/`fp` alias bindings. -/
def legacyAliases (m : List (String × String)) : List (String × String) :=
  noInsert (noInsert (noInsert m "rc" "categorias") "vc" "ver carrito") "fp" "pedido"

/-- Legacy handler `handleOrdering` (`conversation.service.ts`): the
identifier is resolved through `numberedOptions` first, else uppercased as a
raw SKU. The presentation branch filters on `p.disponible`, a field the
presentation schema under src/ does not carry, so that filter keeps
nothing. -/
def handleOrdering (env : Env) (userJid : String) (s : Session) (messageText : String) : HRes :=
  match legacyOrderMatch messageText with
  | some im =>
    let itemIdentifier := im.1
    let quantity := (jsParseInt im.2).getD 0
    let sku := resolveOr s.numberedOptions itemIdentifier (jsToUpper itemIdentifier)
    match s.company with
    | none => (none, [])
    | some comp =>
      match env.findProductBySku comp.id sku with
      | some producto =>
        if ¬ producto.presentacion.isEmpty then
          (some s, [(userJid, "El producto \"" ++ producto.nombreCorto ++
            "\" no tiene presentaciones disponibles en este momento.")])
        else
          let s2 := { s with cart := legacySetFlat s.cart producto quantity }
          let s3 := { s2 with numberedOptions := legacyAliases s2.numberedOptions }
          (some s3, [(userJid, "✅ Añadido: " ++ toString quantity ++ " x " ++
              producto.nombreCorto ++ "."),
            (userJid, legacyOptionsMsg)])
      | none =>
        (some s, [(userJid, "❌ No encontramos el producto con código \"" ++
          jsToUpper itemIdentifier ++ "\". Por favor, verifica el código.")])
  | none =>
    let s2 := { s with numberedOptions := legacyAliases s.numberedOptions }
    (some s2, [(userJid, "No entendí tu mensaje. Para ordenar, usa el formato *SKU/Número Cantidad*."),
      (userJid, legacyFallbackOptionsMsg)])

end Legacy

/-! ### Concrete fixtures for witnesses and counterexamples -/

/-- A flat product: SKU `P1`, price 10, stock 5, no presentations. -/
def prodP1 : Producto := ⟨"P1", "Prod Uno", none, 10, 5, [], []⟩

/-- An in-stock presentation. -/
def presGrande : Pres := ⟨20, 3⟩

/-- An out-of-stock presentation. -/
def presChica : Pres := ⟨15, 0⟩

/-- A product with two presentations. -/
def prodP2 : Producto :=
  ⟨"P2", "Prod Dos", none, 18, 7, [("grande", presGrande), ("chica", presChica)], []⟩

/-- One registered merchant. -/
def empAcme : Empresa := ⟨"e1", "C1", "Acme", none, none, some "300111", "57", none⟩

/-- A bare customer record. -/
def clienteW : Cliente := ⟨"cl1", none, none, none⟩

/-- A small concrete collaborator environment over the fixtures. -/
def envW : Env :=
  ⟨fun n => if n = "acme" then some empAcme else none,
   [empAcme],
   fun _ => [],
   fun cid => if cid = "e1" then [prodP1, prodP2] else [],
   fun _ _ => [],
   fun cid sku => if cid = "e1" ∧ sku = "P1" then some prodP1
     else if cid = "e1" ∧ sku = "P2" then some prodP2 else none,
   fun i => if i = "e1" then some empAcme else none,
   fun n => if n = "300111" then some empAcme else none,
   fun _ => clienteW,
   fun _ => .ok (),
   fun _ _ _ _ => .ok ()⟩

/-- The environment in which persisting an order always throws. -/
def envFail : Env := { envW with createPedido := fun _ => .error () }

/-- A customer chat address. -/
def jidW : String := "100@s.whatsapp.net"

/-- The session company context of `empAcme`. -/
def compW : Company := ⟨"C1", "e1", "Acme"⟩

/-- A browsing session with an empty cart. -/
def sessBrowse : Session :=
  ⟨jidW, "bot1", BROWSING_PRODUCTS, some compW, [], [], none, none, [], none⟩

/-- A browsing session in which a numbered option binds `1` to a SKU. -/
def sessB1 : Session := { sessBrowse with numberedOptions := [("1", "P1")] }

/-- The `pendingProduct` snapshot of the flat product. -/
def ppFlat : PendingProduct := ⟨"P1", "Prod Uno", 10, 5, []⟩

/-- The `pendingProduct` snapshot of the presentation product. -/
def ppPres : PendingProduct :=
  ⟨"P2", "Prod Dos", 18, 7, [("grande", presGrande), ("chica", presChica)]⟩

/-- A session awaiting a bare quantity for the flat product. -/
def sessPendFlat : Session :=
  ⟨jidW, "bot1", AWAITING_QUANTITY_FOR_PRODUCT, some compW, [], [], some ppFlat, none, [], none⟩

/-- A session awaiting a presentation and quantity, with its presentation
options bound. -/
def sessPendPres : Session :=
  ⟨jidW, "bot1", AWAITING_QUANTITY_FOR_PRODUCT, some compW, [],
   [("1", "grande"), ("2", "chica")], some ppPres, none, [], none⟩

/-- A session at the customer-data step with one cart line. -/
def sessCart : Session :=
  ⟨jidW, "bot1", AWAITING_CUSTOMER_DATA, some compW, [], [], none, none,
   [⟨"P1", 2, 10, "Prod Uno", none⟩], none⟩

/-- A session in the chat-relay overlay. -/
def sessChat : Session :=
  ⟨jidW, "bot1", CHATTING, some compW, [], [], none, none, [], some BROWSING_PRODUCTS⟩

/-- A session whose state is `AWAITING_QUANTITY_FOR_PRODUCT` with no pending
product (corrupted per the spec). -/
def sessQtyGhost : Session :=
  ⟨jidW, "bot1", AWAITING_QUANTITY_FOR_PRODUCT, some compW, [], [], none, none, [], none⟩

/-- A session whose state value is undeclared. -/
def sessUnknown : Session :=
  ⟨jidW, "bot1", "weird_state", some compW, [], [], none, none, [], none⟩

/-- The exact chat-relay text `handleChatting` sends to the merchant for the
fixture customer saying `hola`: it embeds the plain tag `[ref:<address>]`. -/
def chatRelayVendorMessage : String :=
  buildVendorChatMessage "Cliente sin nombre" "100" "hola" ++ "\n\n[ref:" ++ jidW ++ "]"

/-- The merchant's reply quoting that relay text. -/
def replyMsgC4 : InboundMsg := ⟨"300111@s.whatsapp.net", "bot1", "ok", some chatRelayVendorMessage⟩

/-- A purge command sent from the merchant's own number as a reply quoting a
backslash-written tag (the only shape the reply regex accepts). -/
def purgeMsgV : InboundMsg :=
  ⟨"300111@s.whatsapp.net", "bot1", "borrar_sesiones_clientes_ahora",
   some "\\[ref:22@s\\.whatsapp\\.net\\]"⟩

/-- A plain purge command from an ordinary customer. -/
def purgeMsgW : InboundMsg := ⟨jidW, "bot1", "borrar_sesiones_clientes_ahora", none⟩

/-- The cart invariant: at most one line per distinct (sku, presentation)
pair. -/
def cartKeyDistinct (cart : List CartItem) : Prop :=
  cart.Pairwise (fun a b => ¬ (a.sku = b.sku ∧ a.presentacion = b.presentacion))

/-- The catalog gateway returns a product exactly under its own SKU
(`empresa.productos.find(p => p.sku === sku)` in `EmpresasService`). -/
def skuConsistent (env : Env) : Prop :=
  ∀ cid sku p, env.findProductBySku cid sku = some p → p.sku = sku

/-! ### Helper lemmas -/

/-- After `deleteOne({userJid})` on a store whose jids are unique (the schema
declares a unique index), no document with that jid remains. -/
theorem deleteOneSession_find_none (store : Store) (jid : String)
    (h : store.Pairwise (fun a b => a.userJid ≠ b.userJid)) :
    ((deleteOneSession store jid).1.find? (fun t => t.userJid = jid)) = none := by
  induction store with
  | nil => rfl
  | cons s rest ih =>
    rcases List.pairwise_cons.mp h with ⟨hall, htail⟩
    by_cases hs : s.userJid = jid
    · simp only [deleteOneSession, hs, if_pos]
      refine List.find?_eq_none.mpr (fun x hx => ?_)
      simpa using fun heq => (hall x hx) (by rw [hs, heq])
    · simp only [deleteOneSession, hs, if_neg, List.find?]
      simpa [hs] using ih htail

/-- ASCII uppercasing is idempotent. -/
theorem charUpperIdem (c : Char) : c.toUpper.toUpper = c.toUpper := by
  unfold Char.toUpper
  by_cases h : c.toNat ≥ 97 ∧ c.toNat ≤ 122
  · rw [if_pos h]
    have hval : Nat.isValidChar (c.toNat - 32) := by left; omega
    have ht : (Char.ofNat (c.toNat - 32)).toNat = c.toNat - 32 := by
      rw [Char.ofNat, dif_pos hval]
      rfl
    rw [ht]
    rw [if_neg (by omega)]
  · rw [if_neg h, if_neg h]

/-- `toUpperCase` is idempotent. -/
theorem jsToUpper_idem (s : String) : jsToUpper (jsToUpper s) = jsToUpper s := by
  unfold jsToUpper
  congr 1
  rw [show (String.mk (List.map Char.toUpper s.data)).data = List.map Char.toUpper s.data from rfl]
  rw [List.map_map]
  exact List.map_congr_left (fun c _ => by simpa [Function.comp] using charUpperIdem c)

/-! ### Claim theorems -/

/-- C10: when the inactivity termination timer fires, `endInactiveSession`
notifies the user and hard-deletes the session document from the store (no
reset in place), so the next `findOrCreate` for that user builds a fresh
session in `SELECTING_COMPANY` with an empty cart. -/
theorem c10_inactivity_deletes_session (store : Store) (jid sid : String)
    (huniq : store.Pairwise (fun a b => a.userJid ≠ b.userJid)) :
    (Engine.endInactiveSession store jid).2 =
      [(jid, "Tu sesión ha sido cerrada por inactividad.")] ∧
    ((Engine.endInactiveSession store jid).1.find? (fun t => t.userJid = jid)) = none ∧
    (findOrCreate (Engine.endInactiveSession store jid).1 jid sid).1 = freshSession jid sid ∧
    (freshSession jid sid).state = SELECTING_COMPANY ∧
    (freshSession jid sid).cart = [] := by
  have hdel : ((Engine.endInactiveSession store jid).1.find? (fun t => t.userJid = jid)) = none := by
    simpa [Engine.endInactiveSession] using deleteOneSession_find_none store jid huniq
  refine ⟨rfl, hdel, ?_, rfl, rfl⟩
  simp [findOrCreate, hdel]

/-- C10 witness at a concrete one-session store. -/
theorem c10_witness :
    (Engine.endInactiveSession [sessBrowse] jidW).2 =
      [(jidW, "Tu sesión ha sido cerrada por inactividad.")] ∧
    ((Engine.endInactiveSession [sessBrowse] jidW).1.find? (fun t => t.userJid = jidW)) = none ∧
    (findOrCreate (Engine.endInactiveSession [sessBrowse] jidW).1 jidW "bot2").1 =
      freshSession jidW "bot2" ∧
    (freshSession jidW "bot2").state = SELECTING_COMPANY ∧
    (freshSession jidW "bot2").cart = [] :=
  c10_inactivity_deletes_session [sessBrowse] jidW "bot2" (by simp)

/-- C9 (amended): an inbound message whose trimmed lowercased text is the
purge command, provided it is not first intercepted as a vendor reply,
deletes every session, replies with the deleted count, and bypasses
numbered-option resolution, command resolution and FSM dispatch (the turn's
entire output is the count reply). -/
theorem c9_purge_clears_all_sessions (env : Env) (store : Store) (m : InboundMsg)
    (hvendor : (handleVendorReply env m).1 = false)
    (htext : jsToLower (jsTrim m.text) = "borrar_sesiones_clientes_ahora") :
    Engine.handleIncomingMessage env store m =
      ([], [(m.fromJid, "Se han borrado " ++ toString store.length ++ " sesiones.")]) := by
  unfold Engine.handleIncomingMessage
  simp [htext, hvendor, clearAllSessions]

/-- C9 witness: a customer sends the purge command over a two-session store. -/
theorem c9_witness :
    Engine.handleIncomingMessage envW [sessBrowse, sessChat] purgeMsgW =
      ([], [(purgeMsgW.fromJid,
        "Se han borrado " ++ toString ([sessBrowse, sessChat] : Store).length ++ " sesiones.")]) :=
  c9_purge_clears_all_sessions envW [sessBrowse, sessChat] purgeMsgW (by decide) (by decide)

/-- C9 counterexample: the same purge text sent from a registered merchant
number as a reply quoting a backslash-written reference tag is intercepted
by the vendor relay before the purge check, so no session is deleted and no
count reply is sent — the claim as stated fails for this inbound message. -/
theorem c9_counterexample :
    jsToLower (jsTrim purgeMsgV.text) = "borrar_sesiones_clientes_ahora" ∧
    Engine.handleIncomingMessage envW [sessBrowse] purgeMsgV =
      ([sessBrowse],
       [("22@s\\.whatsapp\\.net", "Respuesta de Acme:\nborrar_sesiones_clientes_ahora")]) ∧
    (Engine.handleIncomingMessage envW [sessBrowse] purgeMsgV).1 ≠ [] := by
  refine ⟨by decide, by decide, by decide⟩

/-- C4: the engine's own chat relay embeds the plain tag `[ref:<address>]`,
but the vendor-reply regex `/\\\[ref:(\S+@s\\.whatsapp\\.net)\\\]/` only
accepts a backslash-written tag, so a merchant reply quoting the genuine
relay text is not recognized (`handleVendorReply` returns `false`) and the
inbound message falls through to normal FSM dispatch (here: the company
selection handler answers with the merchant list). -/
theorem c4_vendor_reply_regex_code_bug :
    Engine.handleChatting envW jidW sessChat "hola" none =
      (some sessChat, [("57300111@s.whatsapp.net", chatRelayVendorMessage),
        (jidW, "Tu mensaje ha sido enviado.")]) ∧
    vendorRefMatch chatRelayVendorMessage = none ∧
    handleVendorReply envW replyMsgC4 = (false, []) ∧
    Engine.handleIncomingMessage envW [] replyMsgC4 =
      ([{ freshSession "300111@s.whatsapp.net" "bot1" with numberedOptions := [("1", "acme")] }],
       [("300111@s.whatsapp.net", buildCompanyListPrompt [empAcme]),
        ("300111@s.whatsapp.net", buildGeneralOptionsPrompt)]) := by
  refine ⟨by decide, by decide, by decide, by decide⟩

/-- C6: when persisting the order throws, `executeOrderCreation` reports the
generic failure message and returns the session exactly as it was — cart
intact, no reset. -/
theorem c6_persist_failure_preserves_session (env : Env) (jid : String) (s : Session)
    (comp : Company) (hc : s.company = some comp)
    (empresa : Empresa) (he : env.findEmpresaById comp.id = some empresa)
    (hfail : env.createPedido
      ⟨(env.findOrCreateCliente jid).id, empresa.id,
       s.cart.map (fun it => ⟨it.sku, it.quantity, it.presentacion⟩), cartTotal s.cart⟩ =
      .error ()) :
    Engine.executeOrderCreation env jid s = (some s, [(jid, Engine.orderErrorMsg)]) := by
  unfold Engine.executeOrderCreation
  simp [hc, he, hfail]

/-- C6 witness: a failing order store over a one-line cart. -/
theorem c6_witness :
    Engine.executeOrderCreation envFail jidW sessCart =
      (some sessCart, [(jidW, Engine.orderErrorMsg)]) :=
  c6_persist_failure_preserves_session envFail jidW sessCart compW rfl empAcme rfl rfl

/-- C1: on every insufficient-stock order attempt — the `SKU quantity` /
`SKU presentación quantity` paths of `handleOrdering` and the bare-quantity
/ `presentación quantity` paths of `handleAwaitingQuantityForProduct` — the
whole turn output is the session unchanged (cart and state included) plus
exactly the insufficient-stock message quoting the available amount. -/
theorem c1_insufficient_stock_never_mutates :
    (∀ (env : Env) (jid : String) (s : Session) (text : String) (parts : List String)
       (comp : Company) (producto : Producto) (q : Int),
       jsSplitWs text = parts → parts.length = 2 →
       s.company = some comp →
       env.findProductBySku comp.id (jsToUpper (parts.headD "")) = some producto →
       producto.presentacion = [] →
       jsParseInt (parts.getLastD "") = some q → 0 < q →
       producto.existencia < q →
       Engine.handleOrdering env jid s text =
         (some s, [(jid, insufficientStockMsg producto.existencia)])) ∧
    (∀ (env : Env) (jid : String) (s : Session) (text : String) (parts : List String)
       (comp : Company) (producto : Producto) (q : Int) (kv : String × Pres) (sp : Pres),
       jsSplitWs text = parts → 2 < parts.length →
       s.company = some comp →
       env.findProductBySku comp.id (jsToUpper (parts.headD "")) = some producto →
       ¬ producto.presentacion.isEmpty →
       jsParseInt (parts.getLastD "") = some q → 0 < q →
       producto.presentacion.find?
         (fun kv => jsToLower kv.1 = String.intercalate " " ((parts.drop 1).dropLast)) = some kv →
       presGet producto.presentacion kv.1 = some sp →
       sp.existencia < q →
       Engine.handleOrdering env jid s text =
         (some s, [(jid, insufficientStockMsg sp.existencia)])) ∧
    (∀ (env : Env) (jid : String) (s : Session) (text quantityStr : String)
       (pp : PendingProduct) (q : Int),
       text ≠ (cmdInfo .FINALIZE_ORDER).mnemonic →
       s.pendingProduct = some pp → pp.presentacion = [] →
       jsSplitWs text = [quantityStr] →
       jsParseInt quantityStr = some q → 0 < q →
       pp.existencia < q →
       Engine.handleAwaitingQuantityForProduct env jid s text =
         (some s, [(jid, insufficientStockMsg pp.existencia)])) ∧
    (∀ (env : Env) (jid : String) (s : Session) (text : String) (parts : List String)
       (pp : PendingProduct) (q : Int) (sp : Pres),
       text ≠ (cmdInfo .FINALIZE_ORDER).mnemonic →
       s.pendingProduct = some pp → ¬ pp.presentacion.isEmpty →
       jsSplitWs text = parts → 2 ≤ parts.length →
       jsParseInt (parts.getLastD "") = some q → 0 < q →
       presGet pp.presentacion
         (resolveOr s.numberedOptions (String.intercalate " " parts.dropLast)
           (String.intercalate " " parts.dropLast)) = some sp →
       sp.existencia < q →
       Engine.handleAwaitingQuantityForProduct env jid s text =
         (some s, [(jid, insufficientStockMsg sp.existencia)])) := by
  refine ⟨?_, ?_, ?_, ?_⟩
  · intro env jid s text parts comp producto q hparts hlen hc hp hflat hq hqpos hstock
    have h1 : ¬ parts.length < 2 := by omega
    have h2 : ¬ 2 < parts.length := by omega
    have h3 : ¬ q ≤ 0 := by omega
    rw [List.headD_eq_head?] at hp
    rw [List.getLastD_eq_getLast?] at hq
    simp [Engine.handleOrdering, Engine.orderingFinish, hparts, hc, hp, hflat, hq,
      h1, h2, h3, hstock, presGet]
  · intro env jid s text parts comp producto q kv sp hparts hlen hc hp hne hq hqpos hfind hsel
      hstock
    have h1 : ¬ parts.length < 2 := by omega
    have h3 : ¬ q ≤ 0 := by omega
    rw [List.headD_eq_head?] at hp
    rw [List.getLastD_eq_getLast?] at hq
    rw [List.drop_one] at hfind
    simp [Engine.handleOrdering, Engine.orderingFinish, hparts, hc, hp, hq,
      h1, hlen, h3, hne, hfind, hsel, hstock]
  · intro env jid s text quantityStr pp q hmn hpp hflat hparts hq hqpos hstock
    have h3 : ¬ q ≤ 0 := by omega
    simp [Engine.handleAwaitingQuantityForProduct, Engine.qfpQuantity, hmn, hpp, hflat,
      hparts, hq, h3, hstock]
  · intro env jid s text parts pp q sp hmn hpp hpres hparts hlen hq hqpos hsel hstock
    have h1 : ¬ parts.length < 2 := by omega
    have h3 : ¬ q ≤ 0 := by omega
    rw [List.getLastD_eq_getLast?] at hq
    simp [Engine.handleAwaitingQuantityForProduct, Engine.qfpQuantity, hmn, hpp, hpres,
      hparts, h1, hq, h3, hsel, hstock]

/-- C1 witness: the four insufficient-stock paths at concrete inputs (flat
stock 5 and presentation stock 3, each with quantity 9). -/
theorem c1_witness :
    Engine.handleOrdering envW jidW sessBrowse "p1 9" =
      (some sessBrowse, [(jidW, insufficientStockMsg 5)]) ∧
    Engine.handleOrdering envW jidW sessBrowse "p2 grande 9" =
      (some sessBrowse, [(jidW, insufficientStockMsg 3)]) ∧
    Engine.handleAwaitingQuantityForProduct envW jidW sessPendFlat "9" =
      (some sessPendFlat, [(jidW, insufficientStockMsg 5)]) ∧
    Engine.handleAwaitingQuantityForProduct envW jidW sessPendPres "grande 9" =
      (some sessPendPres, [(jidW, insufficientStockMsg 3)]) := by
  obtain ⟨h1, h2, h3, h4⟩ := c1_insufficient_stock_never_mutates
  refine ⟨?_, ?_, ?_, ?_⟩
  · exact h1 envW jidW sessBrowse "p1 9" ["p1", "9"] compW prodP1 9
      (by decide) (by decide) (by decide) (by decide) (by decide) (by decide)
      (by decide) (by decide)
  · exact h2 envW jidW sessBrowse "p2 grande 9" ["p2", "grande", "9"] compW prodP2 9
      ("grande", presGrande) presGrande
      (by decide) (by decide) (by decide) (by decide) (by decide) (by decide)
      (by decide) (by decide) (by decide) (by decide)
  · exact h3 envW jidW sessPendFlat "9" "9" ppFlat 9
      (by decide) (by decide) (by decide) (by decide) (by decide) (by decide) (by decide)
  · exact h4 envW jidW sessPendPres "grande 9" ["grande", "9"] ppPres 9 presGrande
      (by decide) (by decide) (by decide) (by decide) (by decide) (by decide)
      (by decide) (by decide) (by decide)

/-- C5: a bare `SKU quantity` order attempt on a product that has
presentations never writes the cart; the engine sends the redirect notice
and lands in the product-detail flow (`AWAITING_PRODUCT_ACTION` with the
product snapshot and presentation options bound), the cart untouched. -/
theorem c5_presentations_block_bare_order (env : Env) (jid : String) (s : Session)
    (text : String) (parts : List String) (comp : Company) (producto : Producto) (q : Int)
    (hparts : jsSplitWs text = parts) (hlen : parts.length = 2)
    (hc : s.company = some comp)
    (hp : env.findProductBySku comp.id (jsToUpper (parts.headD "")) = some producto)
    (hpres : ¬ producto.presentacion.isEmpty)
    (hq : jsParseInt (parts.getLastD "") = some q) (hqpos : 0 < q)
    (hlk : noLookup s.numberedOptions (jsToUpper (parts.headD "")) = none) :
    (Engine.handleOrdering env jid s text).2.headD ("", "") =
      (jid, "El producto " ++ producto.nombreCorto ++
        " tiene presentaciones. Debes especificar una. Te mostraré el detalle.") ∧
    (Engine.handleOrdering env jid s text).1 =
      some { s with
        pendingProduct := some ⟨producto.sku, producto.nombreCorto, producto.precioVenta,
          producto.existencia, producto.presentacion⟩,
        state := AWAITING_PRODUCT_ACTION,
        numberedOptions := bindNumbered (producto.presentacion.map (fun p => p.1)) } := by
  have h1 : ¬ parts.length < 2 := by omega
  have h2 : ¬ 2 < parts.length := by omega
  have h3 : ¬ q ≤ 0 := by omega
  rw [List.headD_eq_head?] at hp hlk
  rw [List.getLastD_eq_getLast?] at hq
  have hres : resolveOr s.numberedOptions (jsToUpper (parts.head?.getD ""))
      (jsToUpper (jsToUpper (parts.head?.getD ""))) = jsToUpper (parts.head?.getD "") := by
    simp [resolveOr, orDefault, hlk, jsToUpper_idem]
  have hdetail : Engine.handleProductDetail env jid s (jsToUpper (parts.head?.getD "")) =
      (some { s with
        pendingProduct := some ⟨producto.sku, producto.nombreCorto, producto.precioVenta,
          producto.existencia, producto.presentacion⟩,
        state := AWAITING_PRODUCT_ACTION,
        numberedOptions := bindNumbered (producto.presentacion.map (fun p => p.1)) },
       [(jid, buildProductDetailPrompt producto ++ "\n\n" ++
          ("Para agregar, envía el número o nombre de la presentación y la cantidad (ej: *1 2* o *" ++
            ((producto.presentacion.head?.map (fun p => p.1)).getD "presentacion") ++
            " 2*).\n\nPresentaciones:\n" ++
            String.intercalate "\n"
              (producto.presentacion.enum.map (fun q => Engine.presDetailLine q.1 q.2.1 q.2.2)))),
        (jid, Engine.detailOptions)]) := by
    simp only [Engine.handleProductDetail]
    rw [hres]
    simp [hc, hp, hpres]
  simp [Engine.handleOrdering, hparts, hc, hp, hq, h1, h2, h3, hpres, hseq, hdetail]

/-- Under an empty-name miss, `resetSession` with re-prompt completes with a
session whose reset fields are cleared. -/
theorem resetSession_shape (env : Env) (jid : String) (hname : env.findOneByName "" = none)
    (s : Session) (msg : Option String) :
    ∃ s', (Engine.resetSession env jid s true msg).1 = some s' ∧
      s'.state = SELECTING_COMPANY ∧ s'.cart = [] ∧ s'.company = none ∧
      s'.pendingProduct = none ∧ s'.previousState = none ∧ s'.availableCategories = [] := by
  unfold Engine.resetSession Engine.handleCompanySelection
  by_cases hl : env.findAllEmpresas.length > 0 <;>
    simp [hseq, hname, hl]

/-- The first message `resetSession` sends is its explanatory message. -/
theorem resetSession_first_msg (env : Env) (jid : String) (s : Session) (m : String)
    (hm : m ≠ "") :
    (Engine.resetSession env jid s true (some m)).2.headD ("", "") = (jid, m) := by
  unfold Engine.resetSession
  simp [hseq, orDefault, hm]

/-- With a nonempty merchant directory, `resetSession` with the default
message re-prompts company selection: confirmation, merchant list, general
options, numbered options rebound to the merchant names. -/
theorem resetSession_default (env : Env) (jid : String) (hname : env.findOneByName "" = none)
    (hemp : env.findAllEmpresas ≠ []) (s : Session) :
    Engine.resetSession env jid s true none =
      (some { s with
          company := none, cart := [], state := SELECTING_COMPANY,
          availableCategories := [], pendingProduct := none, previousState := none,
          numberedOptions := bindNumbered (env.findAllEmpresas.map (fun e => jsToLower e.nombre)) },
       [(jid, "Sesión reiniciada."), (jid, buildCompanyListPrompt env.findAllEmpresas),
        (jid, buildGeneralOptionsPrompt)]) := by
  have hl : env.findAllEmpresas.length > 0 := List.length_pos.mpr hemp
  unfold Engine.resetSession Engine.handleCompanySelection
  simp [hseq, orDefault, hname, hl]

/-- C7: a turn that resolves to CANCEL, FINISH or END (after numbered-option
substitution), in any session state, resets the session — state back to
`SELECTING_COMPANY`, cart emptied, company context, categories, pending
product and previous state cleared, numbered options rebound by the re-sent
company prompt — and sends the confirmation, the merchant list and the
general options. -/
theorem c7_cancel_resets_from_any_state (env : Env) (store : Store) (m : InboundMsg)
    (hvendor : (handleVendorReply env m).1 = false)
    (hnp : jsToLower (jsTrim m.text) ≠ "borrar_sesiones_clientes_ahora")
    (hcmd : commandLookup (resolveOr (findOrCreate store m.fromJid m.sessionId).1.numberedOptions
        (jsToLower (jsTrim m.text)) (jsToLower (jsTrim m.text))) = some .CANCEL ∨
      commandLookup (resolveOr (findOrCreate store m.fromJid m.sessionId).1.numberedOptions
        (jsToLower (jsTrim m.text)) (jsToLower (jsTrim m.text))) = some .FINISH ∨
      commandLookup (resolveOr (findOrCreate store m.fromJid m.sessionId).1.numberedOptions
        (jsToLower (jsTrim m.text)) (jsToLower (jsTrim m.text))) = some .END)
    (hname : env.findOneByName "" = none)
    (hemp : env.findAllEmpresas ≠ []) :
    Engine.handleIncomingMessage env store m =
      (saveSession (findOrCreate store m.fromJid m.sessionId).2
        { (findOrCreate store m.fromJid m.sessionId).1 with
          company := none, cart := [], state := SELECTING_COMPANY, availableCategories := [],
          pendingProduct := none, previousState := none,
          numberedOptions := bindNumbered (env.findAllEmpresas.map (fun e => jsToLower e.nombre)) },
       [(m.fromJid, "Sesión reiniciada."),
        (m.fromJid, buildCompanyListPrompt env.findAllEmpresas),
        (m.fromJid, buildGeneralOptionsPrompt)]) := by
  unfold Engine.handleIncomingMessage
  rcases hcmd with h | h | h <;>
    simp [hvendor, hnp, h, resetSession_default env m.fromJid hname hemp]

/-- C7 witness: `cancelar` from the browsing session. -/
theorem c7_witness :
    Engine.handleIncomingMessage envW [sessCart] ⟨jidW, "bot1", "cancelar", none⟩ =
      (saveSession (findOrCreate [sessCart] jidW "bot1").2
        { (findOrCreate [sessCart] jidW "bot1").1 with
          company := none, cart := [], state := SELECTING_COMPANY, availableCategories := [],
          pendingProduct := none, previousState := none,
          numberedOptions := bindNumbered (envW.findAllEmpresas.map (fun e => jsToLower e.nombre)) },
       [(jidW, "Sesión reiniciada."),
        (jidW, buildCompanyListPrompt envW.findAllEmpresas),
        (jidW, buildGeneralOptionsPrompt)]) :=
  c7_cancel_resets_from_any_state envW [sessCart] ⟨jidW, "bot1", "cancelar", none⟩
    (by decide) (by decide) (Or.inl (by decide)) (by decide) (by decide)

/-- C8 (amended): an undeclared state value, a pending-product-less
`AWAITING_PRODUCT_ACTION`, and a pending-product-less
`AWAITING_QUANTITY_FOR_PRODUCT` on any message other than the
finalize-order mnemonic, all force a full session reset (completed turn,
cleared fields) whose first message explains the reset. -/
theorem c8_corrupted_context_resets :
    (∀ (env : Env) (jid : String) (s : Session) (text : String) (cmd : Option CommandKey),
       s.state ∉ declaredStates → env.findOneByName "" = none →
       ∃ s', (Engine.processState env s jid text cmd).1 = some s' ∧
         (Engine.processState env s jid text cmd).2.headD ("", "") =
           (jid, "Estado no reconocido, reiniciando sesión.") ∧
         s'.state = SELECTING_COMPANY ∧ s'.cart = [] ∧ s'.company = none ∧
         s'.pendingProduct = none) ∧
    (∀ (env : Env) (jid : String) (s : Session) (text : String) (cmd : Option CommandKey),
       s.state = AWAITING_PRODUCT_ACTION → s.pendingProduct = none →
       env.findOneByName "" = none →
       ∃ s', (Engine.processState env s jid text cmd).1 = some s' ∧
         (Engine.processState env s jid text cmd).2.headD ("", "") =
           (jid, "Error: No hay producto pendiente.") ∧
         s'.state = SELECTING_COMPANY ∧ s'.cart = [] ∧ s'.company = none ∧
         s'.pendingProduct = none) ∧
    (∀ (env : Env) (jid : String) (s : Session) (text : String) (cmd : Option CommandKey),
       s.state = AWAITING_QUANTITY_FOR_PRODUCT → s.pendingProduct = none →
       text ≠ (cmdInfo .FINALIZE_ORDER).mnemonic →
       env.findOneByName "" = none →
       ∃ s', (Engine.processState env s jid text cmd).1 = some s' ∧
         (Engine.processState env s jid text cmd).2.headD ("", "") =
           (jid, "Error: No hay producto pendiente.") ∧
         s'.state = SELECTING_COMPANY ∧ s'.cart = [] ∧ s'.company = none ∧
         s'.pendingProduct = none) := by
  refine ⟨?_, ?_, ?_⟩
  · intro env jid s text cmd hnot hname
    simp only [declaredStates, List.mem_cons, List.mem_singleton, not_or] at hnot
    obtain ⟨h1, h2, h3, h4, h5, h6, h7, _⟩ := hnot
    have hps : Engine.processState env s jid text cmd =
        Engine.resetSession env jid s true (some "Estado no reconocido, reiniciando sesión.") := by
      unfold Engine.processState
      simp [h1, h2, h3, h4, h5, h6, h7]
    obtain ⟨s', hs', hfields⟩ := resetSession_shape env jid hname s
      (some "Estado no reconocido, reiniciando sesión.")
    refine ⟨s', by rw [hps]; exact hs', ?_, hfields.1, hfields.2.1, hfields.2.2.1,
      hfields.2.2.2.1⟩
    rw [hps]
    exact resetSession_first_msg env jid s _ (by decide)
  · intro env jid s text cmd hstate hpp hname
    have hps : Engine.processState env s jid text cmd =
        Engine.resetSession env jid s true (some "Error: No hay producto pendiente.") := by
      unfold Engine.processState Engine.handleAwaitingProductAction
      simp [hstate, hpp, SELECTING_COMPANY, SELECTING_CATEGORY, BROWSING_PRODUCTS,
        AWAITING_PRODUCT_ACTION]
    obtain ⟨s', hs', hfields⟩ := resetSession_shape env jid hname s
      (some "Error: No hay producto pendiente.")
    refine ⟨s', by rw [hps]; exact hs', ?_, hfields.1, hfields.2.1, hfields.2.2.1,
      hfields.2.2.2.1⟩
    rw [hps]
    exact resetSession_first_msg env jid s _ (by decide)
  · intro env jid s text cmd hstate hpp htext hname
    have hps : Engine.processState env s jid text cmd =
        Engine.resetSession env jid s true (some "Error: No hay producto pendiente.") := by
      unfold Engine.processState Engine.handleAwaitingQuantityForProduct
      simp [hstate, hpp, htext, SELECTING_COMPANY, SELECTING_CATEGORY, BROWSING_PRODUCTS,
        AWAITING_PRODUCT_ACTION, AWAITING_QUANTITY_FOR_PRODUCT]
    obtain ⟨s', hs', hfields⟩ := resetSession_shape env jid hname s
      (some "Error: No hay producto pendiente.")
    refine ⟨s', by rw [hps]; exact hs', ?_, hfields.1, hfields.2.1, hfields.2.2.1,
      hfields.2.2.2.1⟩
    rw [hps]
    exact resetSession_first_msg env jid s _ (by decide)

/-- C8 witness: the undeclared state `weird_state` and the two
pending-product-less states, in the fixture environment. -/
theorem c8_witness :
    (∃ s', (Engine.processState envW sessUnknown jidW "hi" none).1 = some s' ∧
       (Engine.processState envW sessUnknown jidW "hi" none).2.headD ("", "") =
         (jidW, "Estado no reconocido, reiniciando sesión.") ∧
       s'.state = SELECTING_COMPANY ∧ s'.cart = [] ∧ s'.company = none ∧
       s'.pendingProduct = none) ∧
    (∃ s', (Engine.processState envW
        { sessQtyGhost with state := AWAITING_PRODUCT_ACTION } jidW "hi" none).1 = some s' ∧
       (Engine.processState envW
        { sessQtyGhost with state := AWAITING_PRODUCT_ACTION } jidW "hi" none).2.headD ("", "") =
         (jidW, "Error: No hay producto pendiente.") ∧
       s'.state = SELECTING_COMPANY ∧ s'.cart = [] ∧ s'.company = none ∧
       s'.pendingProduct = none) ∧
    (∃ s', (Engine.processState envW sessQtyGhost jidW "hi" none).1 = some s' ∧
       (Engine.processState envW sessQtyGhost jidW "hi" none).2.headD ("", "") =
         (jidW, "Error: No hay producto pendiente.") ∧
       s'.state = SELECTING_COMPANY ∧ s'.cart = [] ∧ s'.company = none ∧
       s'.pendingProduct = none) := by
  obtain ⟨h1, h2, h3⟩ := c8_corrupted_context_resets
  exact ⟨h1 envW jidW sessUnknown "hi" none (by decide) (by decide),
    h2 envW jidW { sessQtyGhost with state := AWAITING_PRODUCT_ACTION } "hi" none
      (by decide) (by decide) (by decide),
    h3 envW jidW sessQtyGhost "hi" none (by decide) (by decide) (by decide) (by decide)⟩

/-- C8 counterexample: in `AWAITING_QUANTITY_FOR_PRODUCT` with no pending
product, the finalize-order mnemonic is dispatched to order creation before
the corrupted-context guard, so the session is not reset (it keeps its
corrupted state) and the message is the empty-cart notice, contradicting the
claim's universal forced reset. -/
theorem c8_counterexample :
    sessQtyGhost.state = AWAITING_QUANTITY_FOR_PRODUCT ∧
    sessQtyGhost.pendingProduct = none ∧
    Engine.processState envW sessQtyGhost jidW "fp" (some .FINALIZE_ORDER) =
      (some sessQtyGhost, [(jidW, "Tu carrito está vacío.")]) ∧
    sessQtyGhost.state ≠ SELECTING_COMPANY := by
  refine ⟨rfl, rfl, by decide, by decide⟩

/-- Every member of a `mergeLine` result carries either the new item's key
or the key of an existing line. -/
theorem mergeLine_mem_key (cart : List CartItem) (k : String) (p : Option String) (q : Int)
    (i b : CartItem) (hb : b ∈ mergeLine cart k p q i) :
    (b.sku = i.sku ∧ b.presentacion = i.presentacion) ∨
      ∃ a ∈ cart, b.sku = a.sku ∧ b.presentacion = a.presentacion := by
  induction cart with
  | nil =>
    simp only [mergeLine, List.mem_singleton] at hb
    subst hb
    exact Or.inl ⟨rfl, rfl⟩
  | cons it rest ih =>
    unfold mergeLine at hb
    by_cases hm : it.sku = k ∧ it.presentacion = p
    · rw [if_pos hm] at hb
      rcases List.mem_cons.mp hb with hb | hb
      · subst hb
        exact Or.inr ⟨it, List.mem_cons_self it rest, rfl, rfl⟩
      · exact Or.inr ⟨b, List.mem_cons_of_mem it hb, rfl, rfl⟩
    · rw [if_neg hm] at hb
      rcases List.mem_cons.mp hb with hb | hb
      · refine Or.inr ⟨it, List.mem_cons_self it rest, ?_, ?_⟩ <;> rw [hb]
      · rcases ih hb with h | ⟨a, ha, hk⟩
        · exact Or.inl h
        · exact Or.inr ⟨a, List.mem_cons_of_mem it ha, hk⟩

/-- The cart upsert preserves the one-line-per-key invariant when the new
item carries the matched key. -/
theorem mergeLine_pairwise (cart : List CartItem) (k : String) (p : Option String) (q : Int)
    (i : CartItem) (hik : i.sku = k) (hip : i.presentacion = p)
    (hd : cartKeyDistinct cart) : cartKeyDistinct (mergeLine cart k p q i) := by
  induction cart with
  | nil => simp [mergeLine, cartKeyDistinct]
  | cons it rest ih =>
    rcases List.pairwise_cons.mp hd with ⟨hall, htail⟩
    unfold mergeLine
    by_cases hm : it.sku = k ∧ it.presentacion = p
    · rw [if_pos hm]
      refine List.pairwise_cons.mpr ⟨?_, htail⟩
      intro b hb
      simpa using hall b hb
    · rw [if_neg hm]
      refine List.pairwise_cons.mpr ⟨?_, ih htail⟩
      intro b hb hcontra
      rcases mergeLine_mem_key rest k p q i b hb with ⟨hbs, hbp⟩ | ⟨a, ha, has, hap⟩
      · exact hm ⟨by rw [hcontra.1, hbs, hik], by rw [hcontra.2, hbp, hip]⟩
      · exact hall a ha ⟨by rw [hcontra.1, has], by rw [hcontra.2, hap]⟩

/-- With no line of the key present, the upsert appends. -/
theorem mergeLine_no_match (cart : List CartItem) (k : String) (p : Option String) (q : Int)
    (i : CartItem) (hno : ∀ a ∈ cart, ¬ (a.sku = k ∧ a.presentacion = p)) :
    mergeLine cart k p q i = cart ++ [i] := by
  induction cart with
  | nil => rfl
  | cons it rest ih =>
    unfold mergeLine
    rw [if_neg (hno it (List.mem_cons_self it rest))]
    rw [ih (fun a ha => hno a (List.mem_cons_of_mem it ha))]
    rfl

/-- Upserting onto a cart whose only key-matching line is the appended one
increments that line in place. -/
theorem mergeLine_append_match (cart : List CartItem) (k : String) (p : Option String)
    (q2 : Int) (i1 i2 : CartItem)
    (hno : ∀ a ∈ cart, ¬ (a.sku = k ∧ a.presentacion = p))
    (h1k : i1.sku = k) (h1p : i1.presentacion = p) :
    mergeLine (cart ++ [i1]) k p q2 i2 = cart ++ [{ i1 with quantity := i1.quantity + q2 }] := by
  induction cart with
  | nil =>
    rw [List.nil_append]
    simp only [mergeLine]
    rw [if_pos ⟨h1k, h1p⟩]
    rfl
  | cons it rest ih =>
    rw [List.cons_append]
    simp only [mergeLine]
    rw [if_neg (hno it (List.mem_cons_self it rest))]
    rw [ih (fun a ha => hno a (List.mem_cons_of_mem it ha))]
    rfl

/-- Carts survive `showAllProducts` unchanged. -/
theorem cart_showAllProducts (env : Env) (jid : String) (s s' : Session)
    (h : (Engine.showAllProducts env jid s).1 = some s') : s'.cart = s.cart := by
  unfold Engine.showAllProducts at h
  cases hc : s.company with
  | none => simp [hc] at h
  | some comp =>
    simp [hc] at h
    subst h
    rfl

/-- Carts survive `showCategories` unchanged. -/
theorem cart_showCategories (env : Env) (jid : String) (s s' : Session)
    (h : (Engine.showCategories env jid s).1 = some s') : s'.cart = s.cart := by
  unfold Engine.showCategories at h
  by_cases he : s.availableCategories.isEmpty
  · simp only [he, if_pos, hseq] at h
    exact cart_showAllProducts env jid s s' h
  · simp [he] at h
    subst h
    rfl

/-- Carts survive `handleCompanySelection` unchanged. -/
theorem cart_handleCompanySelection (env : Env) (jid : String) (s : Session) (t : String)
    (s' : Session) (h : (Engine.handleCompanySelection env jid s t).1 = some s') :
    s'.cart = s.cart := by
  unfold Engine.handleCompanySelection at h
  cases hn : env.findOneByName t with
  | none =>
    simp only [hn] at h
    by_cases hl : env.findAllEmpresas.length > 0 <;> simp [hl] at h <;> subst h <;> rfl
  | some e =>
    simp only [hn] at h
    by_cases hcat : (env.findProductCategories e.id).isEmpty
    · simp [hcat, hseq] at h
      have := cart_showAllProducts env jid _ s' h
      simpa using this
    · simp [hcat, hseq] at h
      have := cart_showCategories env jid _ s' h
      simpa using this

/-- `resetSession` always leaves an empty cart. -/
theorem cart_resetSession (env : Env) (jid : String) (s : Session) (b : Bool)
    (msg : Option String) (s' : Session)
    (h : (Engine.resetSession env jid s b msg).1 = some s') : s'.cart = [] := by
  unfold Engine.resetSession at h
  cases b with
  | false =>
    simp at h
    subst h
    rfl
  | true =>
    simp only [if_pos, hseq] at h
    have := cart_handleCompanySelection env jid _ "" s' h
    simpa using this

/-- Carts survive `handleCreateOrder` unchanged. -/
theorem cart_handleCreateOrder (env : Env) (jid : String) (s s' : Session)
    (h : (Engine.handleCreateOrder env jid s).1 = some s') : s'.cart = s.cart := by
  unfold Engine.handleCreateOrder at h
  by_cases hc : s.cart.length = 0 <;> simp [hc] at h <;> subst h <;> rfl

/-- Carts survive `handleProductDetail` unchanged. -/
theorem cart_handleProductDetail (env : Env) (jid : String) (s : Session) (id : String)
    (s' : Session) (h : (Engine.handleProductDetail env jid s id).1 = some s') :
    s'.cart = s.cart := by
  unfold Engine.handleProductDetail at h
  cases hco : s.company with
  | none => simp [hco] at h
  | some comp =>
    simp only [hco] at h
    cases hp : env.findProductBySku comp.id (resolveOr s.numberedOptions id (jsToUpper id)) with
    | none =>
      simp [hp] at h
      subst h
      rfl
    | some producto =>
      simp only [hp] at h
      by_cases hpres : producto.presentacion.isEmpty <;> simp [hpres] at h <;> subst h <;> rfl

/-- The quantity step preserves the cart invariant on every path. -/
theorem cart_qfpQuantity (jid : String) (s : Session) (pp : PendingProduct)
    (qs : String) (pid : Option String) (s' : Session) (hd : cartKeyDistinct s.cart)
    (h : (Engine.qfpQuantity jid s pp qs pid).1 = some s') : cartKeyDistinct s'.cart := by
  unfold Engine.qfpQuantity at h
  cases hq : jsParseInt qs with
  | none =>
    simp [hq] at h
    subst h
    exact hd
  | some q =>
    simp only [hq] at h
    by_cases hq0 : q ≤ 0
    · simp [hq0] at h
      subst h
      exact hd
    · rw [if_neg hq0] at h
      split at h
      · simp at h
        subst h
        exact hd
      · split at h
        · simp at h
          subst h
          exact hd
        · simp at h
          subst h
          exact mergeLine_pairwise _ _ _ _ _ rfl rfl hd

/-- The tail of the ordering path preserves the cart invariant when the
product is returned under its own SKU. -/
theorem cart_orderingFinish (jid : String) (s : Session) (sku : String) (producto : Producto)
    (q : Int) (presName : Option String) (s' : Session)
    (hsku : producto.sku = sku) (hd : cartKeyDistinct s.cart)
    (h : (Engine.orderingFinish jid s sku producto q presName).1 = some s') :
    cartKeyDistinct s'.cart := by
  simp only [Engine.orderingFinish] at h
  split at h
  · simp at h
    subst h
    exact hd
  · simp at h
    subst h
    exact mergeLine_pairwise _ _ _ _ _ (by simpa using hsku) rfl hd

/-- The fixture catalog returns products under their own SKU. -/
theorem envW_skuConsistent : skuConsistent envW := by
  intro cid sku p h
  by_cases h1 : cid = "e1" ∧ sku = "P1"
  · simp [envW, h1] at h
    rw [← h, h1.2]
    rfl
  · by_cases h2 : cid = "e1" ∧ sku = "P2"
    · simp [envW, h1, h2] at h
      rw [← h, h2.2]
      rfl
    · simp [envW, h1, h2] at h

/-- C2: the two cart-adding handlers preserve the at-most-one-line-per-
(sku, presentation) invariant on every path (the ordering path under the
catalog's own-SKU guarantee), and adding the same key twice onto a cart
without it yields one line with the summed quantity. -/
theorem c2_cart_upsert_invariant :
    (∀ (env : Env) (jid : String) (s : Session) (text : String) (s' : Session),
       cartKeyDistinct s.cart →
       (Engine.handleAwaitingQuantityForProduct env jid s text).1 = some s' →
       cartKeyDistinct s'.cart) ∧
    (∀ (env : Env) (jid : String) (s : Session) (text : String) (s' : Session),
       skuConsistent env → cartKeyDistinct s.cart →
       (Engine.handleOrdering env jid s text).1 = some s' →
       cartKeyDistinct s'.cart) ∧
    (∀ (cart : List CartItem) (k : String) (p : Option String) (i1 : CartItem) (q2 : Int)
       (i2 : CartItem),
       i1.sku = k → i1.presentacion = p →
       (∀ a ∈ cart, ¬ (a.sku = k ∧ a.presentacion = p)) →
       mergeLine (mergeLine cart k p i1.quantity i1) k p q2 i2 =
         cart ++ [{ i1 with quantity := i1.quantity + q2 }]) := by
  refine ⟨?_, ?_, ?_⟩
  · intro env jid s text s' hd h
    unfold Engine.handleAwaitingQuantityForProduct at h
    by_cases hfin : text = (cmdInfo .FINALIZE_ORDER).mnemonic
    · rw [if_pos hfin] at h
      rw [cart_handleCreateOrder env jid s s' h]
      exact hd
    · rw [if_neg hfin] at h
      cases hpp : s.pendingProduct with
      | none =>
        simp only [hpp] at h
        rw [cart_resetSession env jid s true _ s' h]
        exact List.Pairwise.nil
      | some pp =>
        simp only [hpp] at h
        split at h
        · split at h
          · simp at h
            subst h
            exact hd
          · exact cart_qfpQuantity _ _ _ _ _ _ hd h
        · split at h
          · simp at h
            subst h
            exact hd
          · exact cart_qfpQuantity _ _ _ _ _ _ hd h
  · intro env jid s text s' hcons hd h
    simp only [Engine.handleOrdering] at h
    split at h
    · simp at h
      subst h
      exact hd
    · split at h
      · simp at h
      · split at h
        · simp at h
          subst h
          exact hd
        · split at h
          · simp only [hseq] at h
            rw [cart_handleProductDetail env jid s _ s' h]
            exact hd
          · split at h
            · simp only [hseq] at h
              rw [cart_handleProductDetail env jid s _ s' h]
              exact hd
            · split at h
              · split at h
                · simp only [hseq] at h
                  rw [cart_handleProductDetail env jid s _ s' h]
                  exact hd
                · split at h
                  · simp only [hseq] at h
                    rw [cart_handleProductDetail env jid s _ s' h]
                    exact hd
                  · exact cart_orderingFinish _ _ _ _ _ _ _ (hcons _ _ _ (by assumption)) hd h
              · split at h
                · simp only [hseq] at h
                  rw [cart_handleProductDetail env jid s _ s' h]
                  exact hd
                · exact cart_orderingFinish _ _ _ _ _ _ _ (hcons _ _ _ (by assumption)) hd h
  · intro cart k p i1 q2 i2 h1k h1p hno
    rw [mergeLine_no_match cart k p i1.quantity i1 hno]
    exact mergeLine_append_match cart k p q2 i1 i2 hno h1k h1p

/-- C2 witness: a presentation add, a flat add and a double add at concrete
inputs keep one line per key. -/
theorem c2_witness :
    cartKeyDistinct ({ sessPendPres with
      cart := [⟨"P2", 2, 20, "Prod Dos", some "grande"⟩],
      state := BROWSING_PRODUCTS, pendingProduct := none,
      numberedOptions := [] } : Session).cart ∧
    cartKeyDistinct ({ sessBrowse with
      cart := [⟨"P1", 2, 10, "Prod Uno", none⟩] } : Session).cart ∧
    mergeLine (mergeLine [] "P1" none 2 (⟨"P1", 2, 10, "Prod Uno", none⟩ : CartItem))
        "P1" none 3 ⟨"P1", 3, 10, "Prod Uno", none⟩ =
      [] ++ [{ (⟨"P1", 2, 10, "Prod Uno", none⟩ : CartItem) with quantity := 2 + 3 }] := by
  obtain ⟨h1, h2, h3⟩ := c2_cart_upsert_invariant
  refine ⟨?_, ?_, ?_⟩
  · exact h1 envW jidW sessPendPres "grande 2"
      { sessPendPres with
        cart := [⟨"P2", 2, 20, "Prod Dos", some "grande"⟩],
        state := BROWSING_PRODUCTS, pendingProduct := none, numberedOptions := [] }
      (by simp [cartKeyDistinct, sessPendPres]) (by decide)
  · exact h2 envW jidW sessBrowse "p1 2"
      { sessBrowse with cart := [⟨"P1", 2, 10, "Prod Uno", none⟩] }
      envW_skuConsistent (by simp [cartKeyDistinct, sessBrowse]) (by decide)
  · exact h3 [] "P1" none ⟨"P1", 2, 10, "Prod Uno", none⟩ 3 ⟨"P1", 3, 10, "Prod Uno", none⟩
      rfl rfl (by simp)

/-- C3 (amended): only the legacy revision's order path resolves the
identifier through `numberedOptions` first (so `n quantity` with `n` bound
orders the product whose SKU is bound to `n`); the refactored engine's
`handleOrdering` uppercases the first token and uses it directly as a raw
SKU, never consulting `numberedOptions`, even when the token is bound. -/
theorem c3_identifier_resolution :
    (∀ (env : Env) (jid : String) (s : Session) (t id qs skuV : String)
       (comp : Company) (producto : Producto) (q : Int),
       Legacy.legacyOrderMatch t = some (id, qs) →
       jsParseInt qs = some q →
       noLookup s.numberedOptions id = some skuV → skuV ≠ "" →
       s.company = some comp →
       env.findProductBySku comp.id skuV = some producto →
       producto.presentacion = [] →
       Legacy.handleOrdering env jid s t =
         (some { s with
             cart := Legacy.legacySetFlat s.cart producto q,
             numberedOptions := Legacy.legacyAliases s.numberedOptions },
          [(jid, "✅ Añadido: " ++ toString q ++ " x " ++ producto.nombreCorto ++ "."),
           (jid, Legacy.legacyOptionsMsg)])) ∧
    (∀ (env : Env) (jid : String) (s : Session) (text : String) (parts : List String)
       (v : String) (comp : Company),
       jsSplitWs text = parts → 2 ≤ parts.length →
       noLookup s.numberedOptions (parts.headD "") = some v →
       s.company = some comp →
       env.findProductBySku comp.id (jsToUpper (parts.headD "")) = none →
       Engine.handleOrdering env jid s text =
         (some s, [(jid, "Producto con SKU \"" ++ jsToUpper (parts.headD "") ++
           "\" no encontrado.")])) := by
  constructor
  · intro env jid s t id qs skuV comp producto q hmatch hq hbound hnz hc hp hflat
    unfold Legacy.handleOrdering
    simp [hmatch, hq, resolveOr, orDefault, hbound, hnz, hc, hp, hflat]
  · intro env jid s text parts v comp hparts hlen hbound hc hp
    have h1 : ¬ parts.length < 2 := by omega
    rw [List.headD_eq_head?] at hp
    unfold Engine.handleOrdering
    simp [hparts, h1, hc, hp]

/-- C3 counterexample: with `1` bound to SKU `P1` in `numberedOptions` and a
product `P1` in the catalog, sending `1 2` while browsing answers `Producto
con SKU "1" no encontrado.` and leaves the cart empty — the refactored
engine does not resolve the identifier through `numberedOptions`, so the
claim as stated fails on it. -/
theorem c3_counterexample :
    sessB1.numberedOptions = [("1", "P1")] ∧
    envW.findProductBySku compW.id "P1" = some prodP1 ∧
    Engine.handleProductBrowsing envW jidW sessB1 "1 2" none =
      (some sessB1, [(jidW, "Producto con SKU \"1\" no encontrado.")]) ∧
    sessB1.cart = [] := by
  refine ⟨rfl, by decide, by decide, rfl⟩

/-- C3 witness: the legacy path orders the bound product, the refactored
path misses on the same bound identifier. -/
theorem c3_witness :
    Legacy.handleOrdering envW jidW sessB1 "1 2" =
      (some { sessB1 with
          cart := Legacy.legacySetFlat sessB1.cart prodP1 2,
          numberedOptions := Legacy.legacyAliases sessB1.numberedOptions },
       [(jidW, "✅ Añadido: " ++ toString (2 : Int) ++ " x " ++ prodP1.nombreCorto ++ "."),
        (jidW, Legacy.legacyOptionsMsg)]) ∧
    Engine.handleOrdering envW jidW sessB1 "1 2" =
      (some sessB1, [(jidW, "Producto con SKU \"1\" no encontrado.")]) := by
  obtain ⟨h1, h2⟩ := c3_identifier_resolution
  refine ⟨?_, ?_⟩
  · exact h1 envW jidW sessB1 "1 2" "1" "2" "P1" compW prodP1 2
      (by decide) (by decide) (by decide) (by decide) (by decide) (by decide) (by decide)
  · exact h2 envW jidW sessB1 "1 2" ["1", "2"] "P1" compW
      (by decide) (by decide) (by decide) (by decide) (by decide)

/-- C5 witness: `p2 2` on the two-presentation product. -/
theorem c5_witness :
    (Engine.handleOrdering envW jidW sessBrowse "p2 2").2.headD ("", "") =
      (jidW, "El producto " ++ prodP2.nombreCorto ++
        " tiene presentaciones. Debes especificar una. Te mostraré el detalle.") ∧
    (Engine.handleOrdering envW jidW sessBrowse "p2 2").1 =
      some { sessBrowse with
        pendingProduct := some ⟨prodP2.sku, prodP2.nombreCorto, prodP2.precioVenta,
          prodP2.existencia, prodP2.presentacion⟩,
        state := AWAITING_PRODUCT_ACTION,
        numberedOptions := bindNumbered (prodP2.presentacion.map (fun p => p.1)) } :=
  c5_presentations_block_bare_order envW jidW sessBrowse "p2 2" ["p2", "2"] compW prodP2 2
    (by decide) (by decide) (by decide) (by decide) (by decide) (by decide) (by decide)
    (by decide)

end VW
